import Mathlib

/-!
# CoreSight — Assignment & Triage Pipeline: shallow embedding and verification

This file models the algorithmic core of the CoreSight backend
(`backend/ai/*.py`, `backend/utils/vector_search.py`,
`backend/services/issue_service.py`, `backend/services/commit_service.py`,
and the `/api/issues` endpoint of `backend/main.py`) and proves or refutes
the specification claims about it.

Modelling conventions:
* Python floats are modelled as `ℚ` (exact rational arithmetic); the claims
  under study are about control flow, ordering and exact formulas, not about
  IEEE-754 rounding.
* `numpy.sqrt` (inside `np.linalg.norm`) is an irrational operation, so the
  functions that need it are parametrised by a square-root function
  `sqrtF : ℚ → ℚ`; theorems that depend on the value of a square root take
  hypotheses that hold for the genuine square root at the points where it is
  applied (e.g. `sqrtF 1 = 1`).  For closed evaluations we use `sqrtFix`,
  which agrees with the real square root on ratios of perfect squares —
  every concrete input used below only takes square roots of `0` or `1`.
* Calls to the external reasoning LLM ("the Oracle") and to the remote
  embedding model are non-deterministic from the program's point of view;
  every function that performs such a call is parametrised by the outcome of
  that call (an `LLMOutcome`/`EmbedOracle` value).  A pipeline function that
  performs several independent calls takes one outcome parameter per call.
* The MongoDB store is modelled by explicit state passing over a `Store`
  value; `insert_one` appends a document with a fresh id, `update_one`
  patches the matching document in place.
-/

set_option maxRecDepth 8192

namespace CoreSight

/-! ## Vector arithmetic (`numpy` operations used by the code) -/

/-- Dot product of two rational vectors; models `np.dot` on two 1-D arrays of
equal length.  (On unequal lengths `np.dot` raises `ValueError`; the callers
below branch before ever evaluating `dotProduct` on unequal lengths.) -/
def dotProduct (v1 v2 : List ℚ) : ℚ :=
  (List.zipWith (· * ·) v1 v2).sum

/-- Sum of squares of the entries: the square of `np.linalg.norm`. -/
def sumSq (v : List ℚ) : ℚ :=
  dotProduct v v

/-- A square-root fixture used to instantiate the `sqrtF` parameter in
closed evaluations: it agrees with the real square root at `0` and `1`,
the only arguments at which the concrete evaluations below ever take a
square root.  (The general theorems are parametric in `sqrtF` and assume
only pointwise facts true of the real square root.) -/
def sqrtFix (q : ℚ) : ℚ :=
  if q = 0 then 0 else if q = 1 then 1 else q

/-- Model of `calculate_cosine_similarity` from `backend/ai/embeddings.py`
(character-identical copies live in `backend/ai_utils.py` and, under the name
`cosine_similarity`, in `backend/utils/vector_search.py`):

```python
def calculate_cosine_similarity(vec1, vec2):
    if not vec1 or not vec2:
        return 0.0
    try:
        dot_product = np.dot(arr1, arr2)        # raises ValueError on length mismatch
        norm1 = np.linalg.norm(arr1)
        norm2 = np.linalg.norm(arr2)
        if norm1 == 0 or norm2 == 0:
            return 0.0
        return float(dot_product / (norm1 * norm2))
    except Exception:
        return 0.0                              # the ValueError lands here
```

The length-mismatch branch returns `0` because `np.dot` on two 1-D arrays of
different lengths raises, and the `except` handler returns `0.0`. -/
def calculate_cosine_similarity (sqrtF : ℚ → ℚ) (vec1 vec2 : List ℚ) : ℚ :=
  if vec1 = [] ∨ vec2 = [] then 0
  else if vec1.length ≠ vec2.length then 0
  else
    let norm1 := sqrtF (sumSq vec1)
    let norm2 := sqrtF (sumSq vec2)
    if norm1 = 0 ∨ norm2 = 0 then 0
    else dotProduct vec1 vec2 / (norm1 * norm2)

/-- Python `s.strip()`: remove leading and trailing whitespace characters.
(Defined over the character list so that it reduces in the kernel; the core
`String.trim` is byte-position based and does not.) -/
def pyStrip (s : String) : String :=
  ⟨((s.data.dropWhile Char.isWhitespace).reverse.dropWhile
      Char.isWhitespace).reverse⟩

/-- Python `s.lower()` (over the character list). -/
def pyLower (s : String) : String :=
  ⟨s.data.map Char.toLower⟩

/-- Right-pad a vector with zeros to length `n`. -/
def padTo (n : ℕ) (v : List ℚ) : List ℚ :=
  v ++ List.replicate (n - v.length) 0

/-- Modelled from the spec (§4.2), for comparison with the code's
`calculate_cosine_similarity`: "If lengths differ, right-pad the shorter with
zeros before computing".  This is the cosine the specification claims the
code computes on mismatched lengths; the code does not implement it. -/
def cosineSpecPadded (sqrtF : ℚ → ℚ) (a b : List ℚ) : ℚ :=
  let n := max a.length b.length
  calculate_cosine_similarity sqrtF (padTo n a) (padTo n b)

/-! ## Stable descending sort (Python `list.sort(key=…, reverse=True)`)

Python's `list.sort` is a stable sort, and stability is preserved under
`reverse=True`.  `List.insertionSort` with the comparator
`fun a b => key b ≤ key a` computes exactly the stable descending order:
an element is placed before another iff its key is greater, or the keys are
equal and it occurred earlier. -/

/-- Model of `xs.sort(key=key, reverse=True)` (as a pure function). -/
def pySortDesc {α : Type _} (key : α → ℚ) (l : List α) : List α :=
  l.insertionSort (fun a b => key b ≤ key a)

theorem pySortDesc_perm {α : Type _} (key : α → ℚ) (l : List α) :
    List.Perm (pySortDesc key l) l :=
  List.perm_insertionSort _ l

theorem pySortDesc_length {α : Type _} (key : α → ℚ) (l : List α) :
    (pySortDesc key l).length = l.length :=
  (pySortDesc_perm key l).length_eq

/-- Insertion into a list preserves any pairwise relation `S`, provided the
new element relates forward to everything present and elements it is placed
after relate back to it vacuously. -/
theorem pairwise_orderedInsert_of {α : Type _} {S : α → α → Prop}
    {r : α → α → Prop} [DecidableRel r] (a : α) :
    ∀ l : List α, (∀ b ∈ l, ¬ r a b → S b a) → (∀ b ∈ l, S a b) →
      l.Pairwise S → (List.orderedInsert r a l).Pairwise S
  | [], _, _, _ => List.pairwise_singleton S a
  | b :: t, hvac, hall, hp => by
    by_cases hab : r a b
    · rw [List.orderedInsert, if_pos hab]
      exact List.Pairwise.cons hall hp
    · rw [List.orderedInsert, if_neg hab]
      rcases List.pairwise_cons.mp hp with ⟨hbt, hpt⟩
      refine List.pairwise_cons.mpr ⟨?_, ?_⟩
      · intro x hx
        rcases (List.mem_orderedInsert r).mp hx with h | h
        · exact h ▸ hvac b (List.mem_cons_self b t) hab
        · exact hbt x h
      · exact pairwise_orderedInsert_of a t
          (fun c hc => hvac c (List.mem_cons_of_mem b hc))
          (fun c hc => hall c (List.mem_cons_of_mem b hc)) hpt

/-- Insertion sort preserves any pairwise relation `S` that holds vacuously
backwards across a failed comparison. -/
theorem pairwise_insertionSort_of {α : Type _} {S : α → α → Prop}
    {r : α → α → Prop} [DecidableRel r]
    (hvac : ∀ a b : α, ¬ r a b → S b a) :
    ∀ l : List α, l.Pairwise S → (l.insertionSort r).Pairwise S
  | [], _ => List.Pairwise.nil
  | b :: t, hp => by
    rcases List.pairwise_cons.mp hp with ⟨hbt, hpt⟩
    rw [List.insertionSort]
    refine pairwise_orderedInsert_of b _ (fun c _ hc => hvac b c hc) ?_
      (pairwise_insertionSort_of hvac t hpt)
    intro c hc
    exact hbt c ((List.mem_insertionSort r).mp hc)

/-- The output of `pySortDesc` is sorted: keys are non-increasing. -/
theorem pySortDesc_sorted {α : Type _} (key : α → ℚ) (l : List α) :
    (pySortDesc key l).Pairwise (fun a b => key b ≤ key a) := by
  letI : IsTotal α (fun a b => key b ≤ key a) :=
    ⟨fun a b => le_total (key b) (key a)⟩
  letI : IsTrans α (fun a b => key b ≤ key a) :=
    ⟨fun _ _ _ h1 h2 => le_trans h2 h1⟩
  exact List.sorted_insertionSort _ l

/-- Stability of `pySortDesc`: on a list whose first components are strictly
increasing tags (e.g. original positions), equal-key elements keep their tag
order in the output. -/
theorem pySortDesc_stable {α : Type _} (key : α → ℚ) (l : List (ℕ × α))
    (hl : l.Pairwise (fun p q => p.1 < q.1)) :
    (pySortDesc (fun p => key p.2) l).Pairwise
      (fun p q => key p.2 = key q.2 → p.1 < q.1) := by
  refine pairwise_insertionSort_of ?_ l (hl.imp ?_)
  · intro p q hr heq
    exact absurd (show key q.2 ≤ key p.2 from le_of_eq heq) hr
  · intro p q h _
    exact h

/-! ## Embedder (`generate_embedding` in `backend/ai/embeddings.py`;
a character-identical copy lives in `backend/ai_utils.py`)

The function first short-circuits on blank input, then performs a network
call to the remote embedding model.  The outcome of that call is a
parameter: -/

/-- Outcome of the remote call inside `generate_embedding`:
* `apiError` — `client.chat.completions.create` (or the response access)
  raised; the outer `except` returns the zero vector.
* `contentList xs` — `json.loads(content)` produced a list whose items all
  convert with `float()`; the function returns that list verbatim, whatever
  its length.
* `contentNonList` — `json.loads` succeeded but produced a non-list; the
  `isinstance` guard fails and the function falls off the end, returning
  Python `None`.
* `unparsable` — `json.loads` (or a `float()` conversion) raised; the inner
  `except` computes the SHA-256 hash fallback. -/
inductive EmbedOracle where
  | apiError : EmbedOracle
  | contentList : List ℚ → EmbedOracle
  | contentNonList : EmbedOracle
  | unparsable : EmbedOracle
  deriving DecidableEq

/-- The hash-fallback vector: position `i` holds byte `i mod 32` of the
SHA-256 digest of the (raw, un-normalised) input text, divided by `255.0`.
The digest is an opaque 32-byte parameter here (SHA-256 itself is a stdlib
call); every theorem below quantifies over digests of 32 bytes `≤ 255`.

```python
hash_bytes = hashlib.sha256(text.encode()).digest()
embedding = []
for i in range(768):
    embedding.append(float(hash_bytes[i % len(hash_bytes)]) / 255.0)
```
-/
def hashFallbackEmbedding (digest : List ℕ) : List ℚ :=
  (List.range 768).map (fun i => ((digest.getD (i % digest.length) 0 : ℕ) : ℚ) / 255)

/-- Model of `generate_embedding(text)`.  `digest` is the SHA-256 digest of
`text` (a deterministic function of `text`, passed as a parameter); `o` is
the outcome of the remote call.  Blank input (`not text or not
text.strip()`) returns the zero vector of length 768 without any remote
call.  `none` models the implicit Python `None` return on the
`contentNonList` branch. -/
def generate_embedding (o : EmbedOracle) (digest : List ℕ) (text : String) :
    Option (List ℚ) :=
  if pyStrip text = "" then some (List.replicate 768 0)
  else
    match o with
    | .apiError => some (List.replicate 768 0)
    | .contentList xs => some xs
    | .contentNonList => none
    | .unparsable => some (hashFallbackEmbedding digest)

/-! ## Data model

Strings model Python `str`; Mongo `ObjectId`s are modelled as `String`
(the code compares them through `str(...)` anyway); `datetime.utcnow()`
timestamps are opaque `String` tokens passed in as a `now` parameter. -/

/-- A user document (collection `users`).  `oid` is the Mongo `_id`,
rendered via `str()`. -/
structure UserDoc where
  oid : String
  name : String
  email : String
  skills : List String
  work_profile_embeddings : List ℚ
  hourly_rate : ℚ
  profile_text : String
  deriving DecidableEq

/-- An issue document (collection `issues`), with the fields written by
`IssueService.create_issue` and the `/api/issues` endpoint of `main.py`. -/
structure IssueDoc where
  title : String
  description : String
  description_embedding : List ℚ
  parent_task_id : Option String
  is_duplicate : Bool
  required_skills : List String
  skill_embeddings : List ℚ
  priority : String
  assigned_user_id : Option String
  assignment_status : String
  activity_log : List String
  source : String
  external_id : Option String
  project_id : Option String
  created_at : String
  updated_at : String
  deriving DecidableEq

/-- An issue document together with its store id. -/
structure StoredIssue where
  sid : String
  doc : IssueDoc
  deriving DecidableEq

/-- A task document (collection `tasks`) — only the fields read by
`search_similar_tasks_for_commit` are modelled. -/
structure TaskDoc where
  description_embeddings : List ℚ
  external_id : Option String
  deriving DecidableEq

/-- A job-requisition document, as written by
`JobService.create_job_requisition` (`backend/services/job_service.py`).
The four `linkedin_*` id/text fields that are initialised to `None` and
never read in the modelled pipeline are collapsed into `linkedin_job_id`. -/
structure Requisition where
  task_id : Option String
  suggested_title : String
  description : String
  required_skills : List String
  linkedin_job_id : Option String
  workplace_type : String
  employment_type : String
  status : String
  created_by : String
  created_at : String
  updated_at : String
  deriving DecidableEq

/-- A commit document (collection `commits`), as written by
`CommitService.process_commit`. -/
structure CommitDoc where
  commit_hash : String
  commit_message : String
  diff_content : String
  summary : String
  extracted_skills : List String
  summary_embedding : List ℚ
  linked_task_id : Option String
  is_jira_tracked : Bool
  author_email : String
  author_name : String
  user_id : Option String
  repository : String
  branch : String
  timestamp : String
  files_changed : ℕ
  lines_added : ℕ
  lines_deleted : ℕ
  triggered_profile_update : Bool
  created_at : String
  deriving DecidableEq

/-- The persistent store: one list per collection, plus a counter for fresh
ids.  `insert_one` appends; `update_one` patches the matching document. -/
structure Store where
  issues : List StoredIssue
  users : List UserDoc
  tasks : List (String × TaskDoc)
  requisitions : List (String × Requisition)
  commits : List (String × CommitDoc)
  nextId : ℕ
  deriving DecidableEq

/-- Fresh document id for the next `insert_one`. -/
def Store.freshId (s : Store) : String :=
  "oid" ++ toString s.nextId

/-- `insert_one("issues", doc)`: append with a fresh id, return the id. -/
def Store.insertIssue (s : Store) (d : IssueDoc) : String × Store :=
  (s.freshId, { s with issues := s.issues ++ [⟨s.freshId, d⟩], nextId := s.nextId + 1 })

/-- `update_one("issues", {"_id": sid}, patch)` (both the `$set` wrapper of
`DatabaseManager.update_one` and the explicit `$set`/`$push` document of
`update_one_raw` are field patches, expressed here as a function on the
matching document; a non-matching filter updates nothing). -/
def Store.updateIssue (s : Store) (sid : String) (f : IssueDoc → IssueDoc) : Store :=
  { s with issues := s.issues.map (fun si => if si.sid = sid then ⟨si.sid, f si.doc⟩ else si) }

/-- `insert_one("job_requisitions", doc)`. -/
def Store.insertRequisition (s : Store) (r : Requisition) : String × Store :=
  (s.freshId, { s with requisitions := s.requisitions ++ [(s.freshId, r)], nextId := s.nextId + 1 })

/-- `insert_one("commits", doc)`. -/
def Store.insertCommit (s : Store) (c : CommitDoc) : String × Store :=
  (s.freshId, { s with commits := s.commits ++ [(s.freshId, c)], nextId := s.nextId + 1 })

/-- `update_one("commits", {"_id": cid}, patch)`. -/
def Store.updateCommit (s : Store) (cid : String) (f : CommitDoc → CommitDoc) : Store :=
  { s with commits := s.commits.map (fun p => if p.1 = cid then (p.1, f p.2) else p) }

/-- `update_one("users", {"_id": uid}, patch)`. -/
def Store.updateUser (s : Store) (uid : String) (f : UserDoc → UserDoc) : Store :=
  { s with users := s.users.map (fun u => if u.oid = uid then f u else u) }

/-- Python truthiness of an optional string (`if x:` with `x` either `None`
or a `str`): true iff present and non-empty. -/
def optTruthy : Option String → Bool
  | none => false
  | some s => s ≠ ""

/-! ## Similarity Engine call sites (`backend/utils/vector_search.py`) -/

/-- Model of `search_similar_issues(db, query_embedding, top_k,
min_similarity)`: fetch all issues, skip those without a
`description_embedding`, score each by cosine similarity against the query,
keep those with similarity `≥ min_similarity`, sort descending by score
(stable), truncate to `top_k`.  The score the Python code stashes into the
document (`issue["similarity_score"]`) is the second component. -/
def search_similar_issues (sqrtF : ℚ → ℚ) (issues : List StoredIssue)
    (query_embedding : List ℚ) (top_k : ℕ) (min_similarity : ℚ) :
    List (StoredIssue × ℚ) :=
  let results :=
    ((issues.filter (fun i => i.doc.description_embedding ≠ [])).map
        (fun i => (i, calculate_cosine_similarity sqrtF query_embedding
                        i.doc.description_embedding))).filter
      (fun p => min_similarity ≤ p.2)
  (pySortDesc (fun p => p.2) results).take top_k

/-- Model of `search_similar_tasks_for_commit(db, query_embedding, top_k,
min_similarity)`: same shape as `search_similar_issues`, over the `tasks`
collection and its `description_embeddings` field. -/
def search_similar_tasks_for_commit (sqrtF : ℚ → ℚ)
    (tasks : List (String × TaskDoc)) (query_embedding : List ℚ)
    (top_k : ℕ) (min_similarity : ℚ) : List ((String × TaskDoc) × ℚ) :=
  let results :=
    ((tasks.filter (fun t => t.2.description_embeddings ≠ [])).map
        (fun t => (t, calculate_cosine_similarity sqrtF query_embedding
                        t.2.description_embeddings))).filter
      (fun p => min_similarity ≤ p.2)
  (pySortDesc (fun p => p.2) results).take top_k

/-- Model of `find_matching_users_by_skills(db, required_skills,
skill_embedding, top_k, min_similarity)` — the skill-overlap ranking mode:

```python
skill_overlap = len(set(required_skills) & set(user_skills))
skill_overlap_ratio = skill_overlap / len(required_skills) if required_skills else 0
embedding_similarity = cosine(skill_embedding, user_embedding) if user_embedding else 0.0
combined_score = skill_overlap_ratio * 0.6 + embedding_similarity * 0.4
```

keeping only candidates with `combined_score >= min_similarity`, sorted
descending (stable), truncated to `top_k`.  Note the overlap counts
distinct common skills but the denominator is the raw list length. -/
def find_matching_users_by_skills (sqrtF : ℚ → ℚ) (users : List UserDoc)
    (required_skills : List String) (skill_embedding : List ℚ)
    (top_k : ℕ) (min_similarity : ℚ) : List (UserDoc × ℚ) :=
  let results :=
    (users.map (fun user =>
      let skill_overlap := ((required_skills.dedup).filter
        (fun s => s ∈ user.skills)).length
      let skill_overlap_ratio : ℚ :=
        if required_skills = [] then 0
        else (skill_overlap : ℚ) / (required_skills.length : ℚ)
      let embedding_similarity : ℚ :=
        if user.work_profile_embeddings = [] then 0
        else calculate_cosine_similarity sqrtF skill_embedding
          user.work_profile_embeddings
      (user, skill_overlap_ratio * (3/5) + embedding_similarity * (2/5)))).filter
      (fun p => min_similarity ≤ p.2)
  (pySortDesc (fun p => p.2) results).take top_k

/-! ## Candidate Ranker, user-matching mode (`backend/ai/matching.py`) -/

/-- A candidate with its scores, modelling the merged dict
`{**user, "match_score": …, "skill_similarity": …, "profile_similarity": …}`. -/
structure MatchedUser where
  user : UserDoc
  match_score : ℚ
  skill_similarity : ℚ
  profile_similarity : ℚ
  deriving DecidableEq

/-- Model of `find_best_matching_users(task_skills, task_embeddings,
available_users, top_n)`.  The function calls `generate_embedding` on the
comma-joined skill strings; since each such call goes to the remote
embedding model, the embedder is abstracted as the parameter
`E : String → List ℚ` (one fixed behaviour per pipeline run).  The float
literals `0.7`/`0.3` are modelled exactly as `7/10`/`3/10`.  The final
`user_scores.sort(key=lambda x: x["match_score"], reverse=True)` is
Python's stable sort, modelled by `pySortDesc`. -/
def find_best_matching_users (E : String → List ℚ) (sqrtF : ℚ → ℚ)
    (task_skills : List String) (task_embeddings : List ℚ)
    (available_users : List UserDoc) (top_n : ℕ := 5) : List MatchedUser :=
  if available_users = [] then []
  else
    let task_skill_embedding := E (String.intercalate ", " task_skills)
    let user_scores := available_users.map (fun user =>
      let user_skill_embedding := E (String.intercalate ", " user.skills)
      let skill_similarity := calculate_cosine_similarity sqrtF
        task_skill_embedding user_skill_embedding
      let profile_similarity := calculate_cosine_similarity sqrtF
        task_embeddings user.work_profile_embeddings
      { user := user
        match_score := skill_similarity * (7/10) + profile_similarity * (3/10)
        skill_similarity := skill_similarity
        profile_similarity := profile_similarity : MatchedUser })
    (pySortDesc (fun m => m.match_score) user_scores).take top_n

/-- The per-candidate scoring step of `find_best_matching_users`, split out
so that theorems can name the scored-but-unsorted list. -/
def scoreUsers (E : String → List ℚ) (sqrtF : ℚ → ℚ)
    (task_skills : List String) (task_embeddings : List ℚ)
    (available_users : List UserDoc) : List MatchedUser :=
  let task_skill_embedding := E (String.intercalate ", " task_skills)
  available_users.map (fun user =>
    let user_skill_embedding := E (String.intercalate ", " user.skills)
    let skill_similarity := calculate_cosine_similarity sqrtF
      task_skill_embedding user_skill_embedding
    let profile_similarity := calculate_cosine_similarity sqrtF
      task_embeddings user.work_profile_embeddings
    { user := user
      match_score := skill_similarity * (7/10) + profile_similarity * (3/10)
      skill_similarity := skill_similarity
      profile_similarity := profile_similarity : MatchedUser })

theorem find_best_matching_users_eq (E : String → List ℚ) (sqrtF : ℚ → ℚ)
    (task_skills : List String) (task_embeddings : List ℚ)
    (available_users : List UserDoc) (top_n : ℕ) :
    find_best_matching_users E sqrtF task_skills task_embeddings
        available_users top_n =
      if available_users = [] then []
      else (pySortDesc (fun m => m.match_score)
        (scoreUsers E sqrtF task_skills task_embeddings available_users)).take top_n := by
  unfold find_best_matching_users scoreUsers
  rfl

/-! ## Oracle-backed components.  Each function that sends a prompt to the
reasoning LLM is parametrised by an `LLMOutcome`: `failure` covers both a
raised call and a reply with no `{...}`/JSON to extract (all such paths land
in the same deterministic fallback), `success r` is the parsed JSON object,
modelled as a record of the fields the callers read. -/

/-- Outcome of one reasoning-LLM call, as seen after the lenient
JSON-extraction step. -/
inductive LLMOutcome (α : Type) where
  | failure : LLMOutcome α
  | success : α → LLMOutcome α
  deriving DecidableEq

/-- Parsed result shape of the duplicate-detection prompt
(`check_issue_duplicate_with_llm`), with the fields the callers read. -/
structure DupResult where
  is_duplicate : Bool
  parent_task_id : Option String
  confidence : ℚ
  reasoning : String
  priority_change : Option String
  new_skills_required : List String
  deriving DecidableEq

/-- Model of `check_issue_duplicate_with_llm` (`backend/ai/analysis.py`;
an older copy with identical control flow lives in `backend/ai_utils.py`).
Returns the result together with a flag recording whether the reasoning LLM
was invoked.  An empty `similar_issues` list short-circuits before the
prompt is built; LLM failure or an unparsable reply yields the
`confidence = 0.5` fallback. -/
def check_issue_duplicate_with_llm (o : LLMOutcome DupResult)
    (new_issue_title new_issue_description : String)
    (similar_issues : List (StoredIssue × ℚ)) : DupResult × Bool :=
  if similar_issues = [] then
    ({ is_duplicate := false, parent_task_id := none, confidence := 1,
       reasoning := "No similar issues found", priority_change := none,
       new_skills_required := [] }, false)
  else
    match o with
    | .success r => (r, true)
    | .failure =>
        ({ is_duplicate := false, parent_task_id := none, confidence := 1/2,
           reasoning := "LLM analysis unavailable, defaulting to new issue",
           priority_change := none, new_skills_required := [] }, true)

/-! ## Skill Extractor (`backend/ai/skills.py`; identical copy in
`backend/ai_utils.py`) -/

/-- The static keyword table of `extract_skills_fallback`, in source
(insertion) order. -/
def skillKeywords : List (String × String) :=
  [("python", "Python"), ("javascript", "JavaScript"), ("java", "Java"),
   ("react", "React"), ("fastapi", "FastAPI"), ("django", "Django"),
   ("flask", "Flask"), ("node", "Node.js"), ("mongodb", "MongoDB"),
   ("postgresql", "PostgreSQL"), ("sql", "SQL"), ("docker", "Docker"),
   ("kubernetes", "Kubernetes"), ("git", "Git"), ("api", "API Development"),
   ("rest", "REST API"), ("graphql", "GraphQL"),
   ("frontend", "Frontend Development"), ("backend", "Backend Development"),
   ("database", "Database Design")]

/-- Model of `extract_skills_fallback(task_title, task_description)`:
case-insensitive substring match of each table keyword against
`title + " " + description`, capped at 7 hits, defaulting to the generic
label on zero hits. -/
def extract_skills_fallback (task_title task_description : String) : List String :=
  let text := pyLower (task_title ++ " " ++ task_description)
  let detected := (skillKeywords.filter
    (fun kv => decide (kv.1.toList <:+: text.toList))).map (fun kv => kv.2)
  if detected = [] then ["General Software Development"] else detected.take 7

/-- Model of `extract_skills_from_task(task_title, task_description,
project_name)`.  A successful LLM reply that parses to a non-empty JSON
array is cleaned (`[str(skill).strip() for skill in skills if skill]`);
every other path (call raised, no array found, empty array) runs the
keyword fallback on `title` and the defaulted description. -/
def extract_skills_from_task (o : LLMOutcome (List String))
    (task_title task_description project_name : String) : List String :=
  let description :=
    if task_description = "" then "No description provided" else task_description
  match o with
  | .success skills =>
      if skills ≠ [] then (skills.filter (fun s => s ≠ "")).map pyStrip
      else extract_skills_fallback task_title description
  | .failure => extract_skills_fallback task_title description

/-! ## Assignment validation (`backend/ai/validation.py`) -/

/-- Parsed result shape of the batch candidate-evaluation prompt, with the
fields the caller reads (`selected_user_id`, `confidence`, `reasoning`).
`selected_user_id := none` also covers a parsed object missing the key
(the caller reads it with `.get`). -/
structure EvalResult where
  selected_user_id : Option String
  confidence : ℚ
  reasoning : String
  deriving DecidableEq

/-- Model of `evaluate_candidates_batch(candidates, …)`.  Returns the
result together with a flag recording whether the reasoning LLM was
invoked.  An empty candidate list short-circuits; a raised call and an
unparsable reply both yield `selected_user_id = None` (they differ only in
the `reasoning` text, which no caller branches on). -/
def evaluate_candidates_batch (o : LLMOutcome EvalResult)
    (candidates : List MatchedUser)
    (task_title task_description : String)
    (required_skills : List String) : EvalResult × Bool :=
  if candidates = [] then
    ({ selected_user_id := none, confidence := 0,
       reasoning := "No candidates provided" }, false)
  else
    match o with
    | .success r => (r, true)
    | .failure =>
        ({ selected_user_id := none, confidence := 0,
           reasoning := "Failed to parse LLM decision" }, true)

/-! ## Escalation Generator (`backend/ai/reports.py`) -/

/-- Report shape flowing out of `generate_no_match_report`.  The three
fields the pipeline may read or patch (`suggested_job_title`,
`suggested_job_description`, `required_experience_years`) are optional, as
the parsed JSON may lack them; the remaining fields are never branched on
downstream. -/
structure Report where
  severity : String
  message : String
  missing_skills : List String
  recommendations : List String
  should_post_job : Bool
  suggested_job_title : Option String
  suggested_job_description : Option String
  required_experience_years : Option ℚ
  llm_evaluation_reasoning : Option String
  deriving DecidableEq

/-- Python string slicing `s[:n]`: the first `n` code points. -/
def pyTake (n : ℕ) (s : String) : String :=
  ⟨s.data.take n⟩

/-- Model of `generate_fallback_job_description(job_title, required_skills,
task_description)`: the fixed HTML template, embedding the full skill list
as `<li>` items and the description excerpt truncated to its first 200
characters. -/
def generate_fallback_job_description (job_title : String)
    (required_skills : List String) (task_description : String) : String :=
  let skills_list := String.join (required_skills.map
    (fun skill => "<li>" ++ skill ++ "</li>"))
  let task_context :=
    if task_description = "" then "Various development tasks" else task_description
  "\n<h2>About the Role</h2>\n<p>We are looking for a talented " ++ job_title ++
    " to join our team and help deliver high-quality software solutions.</p>\n\n" ++
    "<h2>Responsibilities</h2>\n<ul>\n" ++
    "<li>Develop and maintain software according to project requirements</li>\n" ++
    "<li>Collaborate with cross-functional teams</li>\n" ++
    "<li>Participate in code reviews and technical discussions</li>\n" ++
    "<li>Context: " ++ pyTake 200 task_context ++ "...</li>\n</ul>\n\n" ++
    "<h2>Requirements</h2>\n<ul>\n" ++ skills_list ++
    "\n<li>Strong problem-solving skills</li>\n" ++
    "<li>Excellent communication abilities</li>\n</ul>\n\n" ++
    "<h2>Nice to Have</h2>\n<ul>\n<li>Experience with agile methodologies</li>\n" ++
    "<li>Open source contributions</li>\n</ul>\n"

/-- Model of `generate_no_match_report(task_title, task_description,
required_skills, available_users_count)`.  On a successful parse the two
possibly-missing fields are patched in; on failure the deterministic
fallback is synthesized — with the title `"Developer - <first-2-skills>"`
when more than one skill is required and `"<skill> Developer"` otherwise.
`none` models the `IndexError` that `required_skills[0]` raises on the
fallback path when `required_skills` is empty. -/
def generate_no_match_report (o : LLMOutcome Report)
    (task_title task_description : String) (required_skills : List String)
    (available_users_count : ℕ) : Option Report :=
  match o with
  | .success r =>
      let patchedDescription := generate_fallback_job_description
        (r.suggested_job_title.getD
          ("Developer - " ++ String.intercalate ", " (required_skills.take 3)))
        required_skills task_description
      let r1 :=
        if r.suggested_job_description = none then
          { r with suggested_job_description := some patchedDescription }
        else r
      let r2 :=
        if r1.required_experience_years = none then
          { r1 with required_experience_years := some 2 }
        else r1
      some r2
  | .failure =>
      match required_skills with
      | [] => none
      | s0 :: rest =>
          let suggested_title :=
            if 0 < rest.length then
              "Developer - " ++ String.intercalate ", " (required_skills.take 2)
            else s0 ++ " Developer"
          some { severity := "critical"
                 message := "No developers found with required skills: " ++
                   String.intercalate ", " required_skills
                 missing_skills := required_skills
                 recommendations := ["Review existing team skills",
                   "Consider training current developers",
                   "Evaluate external hiring needs"]
                 should_post_job := true
                 suggested_job_title := some suggested_title
                 suggested_job_description :=
                   some (generate_fallback_job_description suggested_title
                     required_skills task_description)
                 required_experience_years := some 2
                 llm_evaluation_reasoning := none }

/-- Modelled from the spec (§4.7 and claim C6), for comparison with the
code's fallback title: the specification's `"<first-2-skills> Developer"`. -/
def specFallbackTitle (required_skills : List String) : String :=
  String.intercalate ", " (required_skills.take 2) ++ " Developer"

/-- Model of `create_job_requisition_from_report(db, task_id, report,
required_skills)` (`backend/services/job_service.py`): builds the
requisition document (status `"pending"`) and inserts it.  `none` models
the `IndexError` raised by the eagerly evaluated default
`f"Developer - {required_skills[0]}"` when `required_skills` is empty. -/
def create_job_requisition_from_report (store : Store) (task_id : String)
    (report : Report) (required_skills : List String) (now : String) :
    Option (String × Store) :=
  match required_skills with
  | [] => none
  | s0 :: _ =>
      let suggested_title := report.suggested_job_title.getD ("Developer - " ++ s0)
      let description := report.suggested_job_description.getD ""
      some (store.insertRequisition
        { task_id := some task_id
          suggested_title := suggested_title
          description := description
          required_skills := required_skills
          linkedin_job_id := none
          workplace_type := "ON_SITE"
          employment_type := "FULL_TIME"
          status := "pending"
          created_by := "system"
          created_at := now
          updated_at := now })

/-! ## Profile Evolution Updater (`backend/ai/analysis.py`) -/

/-- Parsed result shape of the profile-update prompt, with the fields the
caller reads. -/
structure ProfileCheck where
  needs_update : Bool
  reasoning : String
  new_skills_to_add : List String
  updated_profile_text : Option String
  deriving DecidableEq

/-- Model of `check_profile_update_needed(current_profile, current_skills,
new_commit_skills, commit_summary)`.  On LLM failure the deterministic
fallback keeps exactly the commit skills not already present (in commit
order), flags an update iff that list is non-empty, and rewrites no profile
text. -/
def check_profile_update_needed (o : LLMOutcome ProfileCheck)
    (current_profile : String) (current_skills new_commit_skills : List String)
    (commit_summary : String) : ProfileCheck :=
  match o with
  | .success r => r
  | .failure =>
      let new_skills := new_commit_skills.filter (fun s => s ∉ current_skills)
      { needs_update := new_skills ≠ []
        reasoning :=
          if new_skills ≠ [] then
            "Detected " ++ toString new_skills.length ++ " new skills"
          else "No new skills detected"
        new_skills_to_add := new_skills
        updated_profile_text := none }

/-! ## Issue intake pipeline A: `IssueService.create_issue`
(`backend/services/issue_service.py`, served by `routes/issues.py`) -/

/-- The request payload of the issue-intake endpoints, after the route
model applied its defaults (`description=""`, `priority="medium"`,
`source="api"`). -/
structure IssueInput where
  title : String
  description : String
  priority : String
  source : String
  external_id : Option String
  project_id : Option String
  deriving DecidableEq

/-- The response of `IssueService.create_issue`, restricted to the fields
the claims are about.  `status` is the `"status"` value of the returned
dict: `"duplicate_detected"`, `"no_users_available"`, `"no_match"`,
`"assigned"` or `"no_qualified_match"`. -/
structure CreateIssueResult where
  issue_id : String
  status : String
  assigned_user_id : Option String
  requisition_id : Option String
  deriving DecidableEq

/-- Model of `IssueService.create_issue(issue_data)`.  One parameter per
external call: `E` the embedder behaviour, `sqrtF` the float square root,
`dupO`/`skillsO`/`evalO`/`reportO` the outcomes of the four reasoning-LLM
calls (duplicate check, skill extraction, batch candidate evaluation,
no-match report), `now` the opaque timestamp.  The result is `none` exactly
when the Python raises out of the service (the `IndexError` on an empty
skill list inside the requisition path).

Note the document insert at Step 4.5 (`self.db.insert_one("issues",
issue_doc)`) happens before the duplicate early-return: a confirmed
duplicate still inserts a new issue document (flagged `is_duplicate` with
its `parent_task_id`). -/
def IssueService.create_issue (E : String → List ℚ) (sqrtF : ℚ → ℚ)
    (dupO : LLMOutcome DupResult) (skillsO : LLMOutcome (List String))
    (evalO : LLMOutcome EvalResult) (reportO : LLMOutcome Report)
    (now : String) (store : Store) (input : IssueInput) :
    Option (CreateIssueResult × Store) :=
  let title := input.title
  let description := input.description
  -- Step 1: embeddings
  let description_embedding := E (title ++ ". " ++ description)
  -- Step 2: similar issues (top_k=3, min_similarity=0.7)
  let similar_issues := search_similar_issues sqrtF store.issues
    description_embedding 3 (7/10)
  -- Step 3: duplicate check
  let duplicate_check := (check_issue_duplicate_with_llm dupO title description
    similar_issues).1
  let is_duplicate := duplicate_check.is_duplicate
  let parent_task_id := duplicate_check.parent_task_id
  -- Step 4: skills
  let required_skills := extract_skills_from_task skillsO title description "CoreSight"
  let skill_embeddings := E (String.intercalate ", " required_skills)
  let issue_doc : IssueDoc :=
    { title := title, description := description
      description_embedding := description_embedding
      parent_task_id := parent_task_id, is_duplicate := is_duplicate
      required_skills := required_skills, skill_embeddings := skill_embeddings
      priority := input.priority, assigned_user_id := none
      assignment_status := "pending", activity_log := []
      source := input.source, external_id := input.external_id
      project_id := input.project_id, created_at := now, updated_at := now }
  let inserted := store.insertIssue issue_doc
  let issue_id := inserted.1
  let store1 := inserted.2
  if is_duplicate = true ∧ optTruthy parent_task_id then
    -- duplicate: return early with the parent reference (the new document
    -- stays inserted)
    some ({ issue_id := issue_id, status := "duplicate_detected",
            assigned_user_id := none, requisition_id := none }, store1)
  else if store1.users = [] then
    -- no users at all: requisition + posting_required
    match generate_no_match_report reportO title description required_skills 0 with
    | none => none
    | some report =>
      match create_job_requisition_from_report store1 issue_id report
          required_skills now with
      | none => none
      | some (requisition_id, store2) =>
        let store3 := store2.updateIssue issue_id
          (fun d => { d with assignment_status := "posting_required" })
        some ({ issue_id := issue_id, status := "no_users_available",
                assigned_user_id := none,
                requisition_id := some requisition_id }, store3)
  else
    -- Step 5: rank all users (top_n=5)
    let matching_users := find_best_matching_users E sqrtF required_skills
      description_embedding store1.users 5
    if matching_users = [] then
      match generate_no_match_report reportO title description required_skills
          store1.users.length with
      | none => none
      | some report =>
        match create_job_requisition_from_report store1 issue_id report
            required_skills now with
        | none => none
        | some (requisition_id, store2) =>
          let store3 := store2.updateIssue issue_id
            (fun d => { d with assignment_status := "posting_required" })
          some ({ issue_id := issue_id, status := "no_match",
                  assigned_user_id := none,
                  requisition_id := some requisition_id }, store3)
    else
      -- Step 6: batch validation by the reasoning LLM
      let evaluation := (evaluate_candidates_batch evalO matching_users title
        description required_skills).1
      -- Step 7: assign only when a ranked candidate matches the selection
      let assigned_user :=
        if optTruthy evaluation.selected_user_id then
          matching_users.find?
            (fun u => u.user.oid = evaluation.selected_user_id.getD "")
        else none
      match assigned_user with
      | some au =>
        let store2 := store1.updateIssue issue_id
          (fun d => { d with assigned_user_id := evaluation.selected_user_id,
                             assignment_status := "assigned",
                             updated_at := now })
        some ({ issue_id := issue_id, status := "assigned",
                assigned_user_id := some au.user.oid,
                requisition_id := none }, store2)
      | none =>
        -- rejected (or the selected id matches no candidate): requisition
        match generate_no_match_report reportO title description required_skills
            store1.users.length with
        | none => none
        | some report0 =>
          let report :=
            if evaluation.reasoning ≠ "" then
              { report0 with llm_evaluation_reasoning := some evaluation.reasoning }
            else report0
          match create_job_requisition_from_report store1 issue_id report
              required_skills now with
          | none => none
          | some (requisition_id, store2) =>
            let store3 := store2.updateIssue issue_id
              (fun d => { d with assignment_status := "posting_required" })
            some ({ issue_id := issue_id, status := "no_qualified_match",
                    assigned_user_id := none,
                    requisition_id := some requisition_id }, store3)

/-! ## Issue intake pipeline B: the `/api/issues` endpoint of
`backend/main.py` (`create_issue_with_ai`) -/

/-- The response of `create_issue_with_ai`, restricted to the fields the
claims are about.  `action` is the `"action"` value of the response:
`"updated_existing"`, `"created_and_assigned"` or
`"created_requires_posting"`. -/
structure MainIssueResult where
  action : String
  parent_task_id : Option String
  issue_id : Option String
  assigned_user_id : Option String
  deriving DecidableEq

/-- Model of the `POST /api/issues` handler `create_issue_with_ai` in
`backend/main.py`.  `none` models the HTTP 400 on a blank title or
description.  The parameter `evalO` (the outcome a batch candidate
validation call would have) is deliberately accepted and never used: this
endpoint contains no validation call — Scenario B assigns
`matching_users[0]` directly — and `create_issue_with_ai_ignores_validation`
below proves the output is independent of `evalO`. -/
def create_issue_with_ai (E : String → List ℚ) (sqrtF : ℚ → ℚ)
    (dupO : LLMOutcome DupResult) (skillsO : LLMOutcome (List String))
    (evalO : LLMOutcome EvalResult) (now : String) (store : Store)
    (input : IssueInput) : Option (MainIssueResult × Store) :=
  let title := pyStrip input.title
  let description := pyStrip input.description
  if title = "" ∨ description = "" then none
  else
    -- Step 1: embedding of "title description"
    let combined_text := title ++ " " ++ description
    let issue_embedding := E combined_text
    -- Step 2: similar issues (top_k=5, min_similarity=0.7)
    let similar_issues := search_similar_issues sqrtF store.issues
      issue_embedding 5 (7/10)
    -- Step 3: duplicate analysis
    let llm_analysis := (check_issue_duplicate_with_llm dupO title description
      similar_issues).1
    if llm_analysis.is_duplicate = true ∧ optTruthy llm_analysis.parent_task_id then
      -- Scenario A: mutate the parent in place, insert nothing
      let parent := llm_analysis.parent_task_id.getD ""
      let entry0 := "[" ++ now ++ "] Related issue reported: " ++ title
      let setPriority := optTruthy llm_analysis.priority_change
      let entry1 :=
        if setPriority then entry0 ++ " | Priority updated to: " ++ input.priority
        else entry0
      let setSkills := llm_analysis.new_skills_required ≠ []
      let entry2 :=
        if setSkills then
          entry1 ++ " | New skills added: " ++
            String.intercalate ", " llm_analysis.new_skills_required
        else entry1
      let new_skill_embedding := E (String.intercalate ", "
        llm_analysis.new_skills_required)
      let store1 := store.updateIssue parent (fun d =>
        let d1 := { d with updated_at := now }
        let d2 := if setPriority then { d1 with priority := input.priority } else d1
        let d3 :=
          if setSkills then
            { d2 with required_skills := llm_analysis.new_skills_required,
                      skill_embeddings := new_skill_embedding,
                      description_embedding := issue_embedding }
          else d2
        { d3 with activity_log := d3.activity_log ++ [entry2] })
      some ({ action := "updated_existing", parent_task_id := some parent,
              issue_id := none, assigned_user_id := none }, store1)
    else
      -- Scenario B: new issue
      let required_skills := extract_skills_from_task skillsO title description
        "Project"
      let skill_embedding := E (String.intercalate ", " required_skills)
      let issue_doc : IssueDoc :=
        { title := title, description := description
          description_embedding := issue_embedding
          parent_task_id := none, is_duplicate := false
          required_skills := required_skills, skill_embeddings := skill_embedding
          priority := input.priority, assigned_user_id := none
          assignment_status := "pending"
          activity_log := ["[" ++ now ++ "] Issue created"]
          source := input.source, external_id := input.external_id
          project_id := input.project_id, created_at := now, updated_at := now }
      let inserted := store.insertIssue issue_doc
      let issue_id := inserted.1
      let store1 := inserted.2
      -- Step 5: skill-overlap matching (top_k=5, min_similarity=0.5)
      let matching_users := find_matching_users_by_skills sqrtF store1.users
        required_skills skill_embedding 5 (1/2)
      match matching_users with
      | best_match :: _ =>
        -- assign matching_users[0] directly — no validation call exists here
        let user_id := best_match.1.oid
        let store2 := store1.updateIssue issue_id
          (fun d => { d with assigned_user_id := some user_id,
                             assignment_status := "assigned" })
        some ({ action := "created_and_assigned", parent_task_id := none,
                issue_id := some issue_id,
                assigned_user_id := some user_id }, store2)
      | [] =>
        -- trigger_job_posting builds a pure in-memory dict (no store write),
        -- then the issue is marked posting_required
        let store2 := store1.updateIssue issue_id
          (fun d => { d with assignment_status := "posting_required" })
        some ({ action := "created_requires_posting", parent_task_id := none,
                issue_id := some issue_id, assigned_user_id := none }, store2)

/-! ## Commit pipeline: `CommitService.process_commit`
(`backend/services/commit_service.py`) -/

/-- Parsed result shape of the commit-analysis prompt; all three fields are
read back with `.get` defaults, hence optional. -/
structure CommitAnalysis where
  summary : Option String
  skills_used : Option (List String)
  impact_assessment : Option String
  deriving DecidableEq

/-- Model of `extract_skills_from_commit_diff(commit_message, diff_content,
repository)`: LLM first, deterministic constant fallback on failure. -/
def extract_skills_from_commit_diff (o : LLMOutcome CommitAnalysis)
    (commit_message diff_content repository : String) : CommitAnalysis :=
  match o with
  | .success r => r
  | .failure =>
      { summary := some (if commit_message = "" then "Code changes" else commit_message)
        skills_used := some ["Software Development"]
        impact_assessment := some "minor" }

/-- Model of Python `list(set(l))` over strings: the duplicates are removed;
CPython's set iteration order is unspecified (hash-randomised), so no
theorem below depends on the order of this list, only on its members. -/
def pySetList (l : List String) : List String :=
  l.dedup

/-- The request payload of the commit endpoint. -/
structure CommitInput where
  commit_hash : String
  commit_message : String
  diff : String
  author_email : String
  author_name : String
  repository : String
  branch : String
  files_changed : ℕ
  lines_added : ℕ
  lines_deleted : ℕ
  deriving DecidableEq

/-- The response of `CommitService.process_commit`, restricted to the
fields the claims are about. -/
structure ProcessCommitResult where
  commit_id : String
  profile_updated : Bool
  new_skills_added : List String
  deriving DecidableEq

/-- Model of `CommitService.process_commit(commit_data)`.  `analysisO` and
`profO` are the outcomes of the two reasoning-LLM calls; `E` the embedder
behaviour.  When the profile check flags an update, the merged skill list
`list(set(current_skills + new_skills_to_add))` is re-embedded and both the
skills and the embedding are written in one `update_one` on the user. -/
def CommitService.process_commit (E : String → List ℚ) (sqrtF : ℚ → ℚ)
    (analysisO : LLMOutcome CommitAnalysis) (profO : LLMOutcome ProfileCheck)
    (now : String) (store : Store) (input : CommitInput) :
    ProcessCommitResult × Store :=
  -- Step 1: commit analysis
  let analysis := extract_skills_from_commit_diff analysisO input.commit_message
    input.diff input.repository
  let summary := analysis.summary.getD input.commit_message
  let skills_used := analysis.skills_used.getD []
  -- Step 2: summary embedding
  let summary_embedding := E summary
  -- Step 3: task linking (top_k=1, min_similarity=0.6)
  let similar_tasks := search_similar_tasks_for_commit sqrtF store.tasks
    summary_embedding 1 (3/5)
  let linked :=
    match similar_tasks with
    | (best, _) :: _ => (some best.1, optTruthy best.2.external_id)
    | [] => ((none : Option String), false)
  -- Step 4: author lookup
  let user? := store.users.find? (fun u => u.email = input.author_email)
  let commit_doc : CommitDoc :=
    { commit_hash := input.commit_hash, commit_message := input.commit_message
      diff_content := input.diff, summary := summary
      extracted_skills := skills_used, summary_embedding := summary_embedding
      linked_task_id := linked.1, is_jira_tracked := linked.2
      author_email := input.author_email, author_name := input.author_name
      user_id := user?.map (fun u => u.oid)
      repository := input.repository, branch := input.branch
      timestamp := now, files_changed := input.files_changed
      lines_added := input.lines_added, lines_deleted := input.lines_deleted
      triggered_profile_update := false, created_at := now }
  let inserted := store.insertCommit commit_doc
  let commit_id := inserted.1
  let store1 := inserted.2
  match user? with
  | none =>
      ({ commit_id := commit_id, profile_updated := false,
         new_skills_added := [] }, store1)
  | some user =>
      -- Steps 5-6: profile-evolution check
      let profile_check := check_profile_update_needed profO user.profile_text
        user.skills skills_used summary
      if profile_check.needs_update then
        -- Step 7: merge, re-embed, write skills and embedding together
        let new_skills := pySetList (user.skills ++ profile_check.new_skills_to_add)
        let new_embedding := E (String.intercalate ", " new_skills)
        let store2 := store1.updateUser user.oid
          (fun u => { u with skills := new_skills,
                             work_profile_embeddings := new_embedding })
        let store3 := store2.updateCommit commit_id
          (fun c => { c with triggered_profile_update := true })
        ({ commit_id := commit_id, profile_updated := true,
           new_skills_added := profile_check.new_skills_to_add }, store3)
      else
        ({ commit_id := commit_id, profile_updated := false,
           new_skills_added := [] }, store1)

/-! ## Shared concrete fixtures for closed evaluations -/

/-- An embedder behaviour returning the empty vector for every text. -/
def E0 : String → List ℚ := fun _ => []

/-- An embedder behaviour returning the one-element vector `[1]`. -/
def E1 : String → List ℚ := fun _ => [1]

/-- One possible remote-embedding behaviour: the model happens to place
"Python" near the query and "Rust" orthogonal to it. -/
def E2 : String → List ℚ :=
  fun s => if s = "Python" then [1] else if s = "Rust" then [0] else [1]

/-- Another possible remote-embedding behaviour for the very same strings:
this time "Rust" lands near the query and "Python" orthogonal to it. -/
def E3 : String → List ℚ :=
  fun s => if s = "Python" then [0] else if s = "Rust" then [1] else [1]

/-- A second concrete user, with a different skill set. -/
def userRust : UserDoc :=
  { oid := "u2", name := "Bob", email := "bob@example.com",
    skills := ["Rust"], work_profile_embeddings := [], hourly_rate := 60,
    profile_text := "" }

/-- A concrete user. -/
def sampleUser : UserDoc :=
  { oid := "u1", name := "Alice", email := "alice@example.com",
    skills := ["Python"], work_profile_embeddings := [], hourly_rate := 50,
    profile_text := "" }

/-- The empty store. -/
def emptyStore : Store :=
  { issues := [], users := [], tasks := [], requisitions := [], commits := [],
    nextId := 0 }

/-- A store holding exactly one user. -/
def oneUserStore : Store :=
  { emptyStore with users := [sampleUser] }

/-- A concrete pending issue, used as the duplicate parent. -/
def parentIssueDoc : IssueDoc :=
  { title := "Login fails", description := "Login button does nothing",
    description_embedding := [1], parent_task_id := none, is_duplicate := false,
    required_skills := ["Python"], skill_embeddings := [1],
    priority := "medium", assigned_user_id := none,
    assignment_status := "pending", activity_log := [], source := "api",
    external_id := none, project_id := none, created_at := "t-1",
    updated_at := "t-1" }

/-- A store holding exactly one issue (the duplicate parent). -/
def oneIssueStore : Store :=
  { emptyStore with issues := [⟨"i1", parentIssueDoc⟩] }

/-- A concrete intake request. -/
def sampleInput : IssueInput :=
  { title := "Login fails again", description := "Same login button broken",
    priority := "high", source := "api", external_id := none,
    project_id := none }

/-- A duplicate-check LLM reply confirming a duplicate of issue `i1`. -/
def dupYes : DupResult :=
  { is_duplicate := true, parent_task_id := some "i1", confidence := 9/10,
    reasoning := "same login failure", priority_change := none,
    new_skills_required := [] }

/-! ## Claims -/

/-- C3 counterexample: the claim states that on vectors of differing
lengths `cosine` equals the cosine of the zero-padded vectors, in
particular `cosine([1,0,0],[1,0]) = 1.0`.  On the code, `np.dot` raises on
the length mismatch and the handler returns `0.0`: the call returns `0`,
while the padded cosine of the same two vectors is `1`. -/
theorem C3_counterexample :
    calculate_cosine_similarity sqrtFix [1, 0, 0] [1, 0] = 0 ∧
    cosineSpecPadded sqrtFix [1, 0, 0] [1, 0] = 1 ∧
    calculate_cosine_similarity sqrtFix [1, 0, 0] [1, 0] ≠
      cosineSpecPadded sqrtFix [1, 0, 0] [1, 0] := by
  have h1 : calculate_cosine_similarity sqrtFix [1, 0, 0] [1, 0] = 0 := by
    decide
  have h2 : cosineSpecPadded sqrtFix [1, 0, 0] [1, 0] = 1 := by
    norm_num [cosineSpecPadded, calculate_cosine_similarity, padTo, sumSq,
      dotProduct, sqrtFix]
    decide
  refine ⟨h1, h2, ?_⟩
  rw [h1, h2]
  norm_num

/-- C3 (amended): for every pair of vectors of differing lengths,
`calculate_cosine_similarity` returns normally with the value `0.0` (the
`except`-handler fallback for the `ValueError` that `np.dot` raises) — it
does not right-pad and does not compute the padded cosine. -/
theorem C3_mismatch_returns_zero (sqrtF : ℚ → ℚ) (a b : List ℚ)
    (h : a.length ≠ b.length) :
    calculate_cosine_similarity sqrtF a b = 0 := by
  unfold calculate_cosine_similarity
  by_cases he : a = [] ∨ b = []
  · rw [if_pos he]
  · rw [if_neg he, if_pos h]

theorem C3_mismatch_returns_zero_witness :
    calculate_cosine_similarity sqrtFix [1, 0, 0] [1, 0] = 0 :=
  C3_mismatch_returns_zero sqrtFix [1, 0, 0] [1, 0] (by decide)

/-- C8 counterexample: the claim states that for every fixed input string,
repeated calls of `embed` return the same vector.  For non-blank input the
function consults the remote embedding model, so two calls on the same
string can return different vectors — here one call whose API request
raised (zero vector) against one whose reply parsed to `[1]`. -/
theorem C8_counterexample :
    generate_embedding .apiError (List.replicate 32 0) "x" ≠
      generate_embedding (.contentList [1]) (List.replicate 32 0) "x" := by
  decide

/-- C8 (amended): `embed("")` and `embed("   ")` (any blank input) return
the all-zero vector of length 768, for every behaviour of the remote model
and digest — those calls are deterministic; and two calls on the same
input return the same vector whenever the remote outcome (and digest)
coincide. -/
theorem C8_blank_zero_vector (o o' : EmbedOracle) (d d' : List ℕ) (s : String)
    (h : pyStrip s = "") :
    generate_embedding o d s = some (List.replicate 768 0) ∧
    generate_embedding o d s = generate_embedding o' d' s := by
  unfold generate_embedding
  rw [if_pos h, if_pos h]
  exact ⟨rfl, rfl⟩

/-! Helper lemmas about the hash-fallback embedding (for C4). -/

theorem hashFallbackEmbedding_length (digest : List ℕ) :
    (hashFallbackEmbedding digest).length = 768 := by
  simp [hashFallbackEmbedding]

theorem hashFallbackEmbedding_getD (digest : List ℕ) (i : ℕ) (h : i < 768) :
    (hashFallbackEmbedding digest).getD i 0 =
      ((digest.getD (i % digest.length) 0 : ℕ) : ℚ) / 255 := by
  unfold hashFallbackEmbedding
  rw [List.getD_eq_getElem _ _ (by simpa using h), List.getElem_map,
    List.getElem_range]

/-- Summing `g (i % n)` over `range (m * n)` cycles through `range n`
exactly `m` times. -/
theorem sum_range_mul_mod (g : ℕ → ℚ) (m n : ℕ) :
    ((List.range (m * n)).map (fun i => g (i % n))).sum =
      m * ((List.range n).map (fun j => g (j % n))).sum := by
  induction m with
  | zero => simp
  | succ m ih =>
    rw [Nat.succ_mul, List.range_add, List.map_append, List.sum_append, ih,
      List.map_map]
    have hcong : (List.range n).map ((fun i => g (i % n)) ∘ fun x => m * n + x)
        = (List.range n).map (fun j => g (j % n)) := by
      refine List.map_congr_left ?_
      intro j _
      simp [Function.comp, Nat.mul_comm m n, Nat.mul_add_mod]
    rw [hcong]
    push_cast
    ring

/-- The squared Euclidean norm of the hash-fallback vector, scaled by
`255² = 65025`, is `24` times a sum of squared digest bytes — a natural
number times `24`. -/
theorem sumSq_hashFallback_mul (digest : List ℕ) (h32 : digest.length = 32) :
    sumSq (hashFallbackEmbedding digest) * 65025 =
      24 * ((((List.range 32).map (fun j => (digest.getD j 0) ^ 2)).sum : ℕ) : ℚ) := by
  unfold sumSq dotProduct hashFallbackEmbedding
  rw [List.zipWith_same, List.map_map, h32]
  have hsum : ((List.range 768).map
      ((fun a => a * a) ∘ fun i => ((digest.getD (i % 32) 0 : ℕ) : ℚ) / 255)).sum * 65025
      = ((List.range 768).map
        (fun i => ((digest.getD (i % 32) 0 : ℕ) : ℚ) ^ 2)).sum := by
    rw [← List.sum_map_mul_right]
    refine congrArg List.sum (List.map_congr_left ?_)
    intro i _
    simp only [Function.comp]
    field_simp
    ring
  rw [hsum, show (768 : ℕ) = 24 * 32 from rfl,
    sum_range_mul_mod (fun j => ((digest.getD j 0 : ℕ) : ℚ) ^ 2) 24 32]
  rw [Nat.cast_list_sum, List.map_map]
  have hcast : (List.range 32).map
      ((fun (x : ℕ) => (x : ℚ)) ∘ fun j => (digest.getD j 0) ^ 2)
      = (List.range 32).map (fun j => ((digest.getD j 0 : ℕ) : ℚ) ^ 2) := by
    refine List.map_congr_left ?_
    intro j _
    simp [Function.comp]
  have hmod : (List.range 32).map
      (fun j => ((digest.getD (j % 32) 0 : ℕ) : ℚ) ^ 2)
      = (List.range 32).map (fun j => ((digest.getD j 0 : ℕ) : ℚ) ^ 2) := by
    refine List.map_congr_left ?_
    intro j hj
    rw [Nat.mod_eq_of_lt (by simpa using List.mem_range.mp hj)]
  rw [hcast, hmod]
  push_cast
  ring

/-- C4 counterexample: for the all-ones digest and the non-blank input
`"x"`, the hash-fallback embedding is the constant vector `1/255`, whose
squared L2 norm is `768/65025` — neither `1` (so the returned vector is not
L2-normalised) nor `0` (so the "no-op on zero norm" escape does not apply).
Moreover a reply from the remote model that parses to a JSON list is
returned verbatim, so the result need not even have 768 entries. -/
theorem C4_counterexample :
    generate_embedding .unparsable (List.replicate 32 1) "x" =
      some (List.replicate 768 ((1 : ℚ)/255)) ∧
    sumSq (List.replicate 768 ((1 : ℚ)/255)) = 768/65025 ∧
    ((768 : ℚ)/65025) ≠ 1 ∧ ((768 : ℚ)/65025) ≠ 0 ∧
    generate_embedding (.contentList [1]) (List.replicate 32 1) "x" = some [1] ∧
    ([1] : List ℚ).length ≠ 768 := by
  refine ⟨?_, ?_, by norm_num, by norm_num, ?_, by decide⟩
  · have hconst : hashFallbackEmbedding (List.replicate 32 1) =
        List.replicate 768 ((1 : ℚ)/255) := by
      unfold hashFallbackEmbedding
      have hmap : (List.range 768).map (fun i =>
          (((List.replicate 32 1).getD (i % (List.replicate 32 1).length) 0 : ℕ) : ℚ) / 255)
          = (List.range 768).map (fun _ => (1 : ℚ)/255) := by
        refine List.map_congr_left ?_
        intro i _
        rw [List.length_replicate,
          List.getD_eq_getElem _ _ (by simpa using Nat.mod_lt i (by norm_num)),
          List.getElem_replicate]
        norm_num
      rw [hmap, List.map_const', List.length_range]
    unfold generate_embedding
    rw [if_neg (by decide)]
    exact congrArg some hconst
  · unfold sumSq dotProduct
    rw [List.zipWith_same, List.map_replicate, List.sum_replicate,
      nsmul_eq_mul]
    norm_num
  · unfold generate_embedding
    rw [if_neg (by decide)]

/-- C4 (amended): on the deterministic hash-fallback path (remote reply did
not parse as a JSON list), `embed` of a non-blank text returns the
768-element vector whose position-`i` scalar is byte `i mod 32` of the
SHA-256 digest of the raw text, divided by `255` — deterministic given the
digest, each scalar in `[0, 1]` (hence in `[-1, 1]`) — and the vector is
returned without L2-normalisation: its squared norm is never `1` (it equals
`24·Σbyte²/65025`, and `24·Σbyte² = 65025` has no solution).  The text is
not case-folded: the digest is of the raw text.  (On the path where the
remote reply parses as a JSON list, the list is returned verbatim with no
length or normalisation guarantee, as the counterexample shows.) -/
theorem C4_hash_fallback_embedding (digest : List ℕ) (text : String)
    (h32 : digest.length = 32) (hb : ∀ b ∈ digest, b ≤ 255)
    (ht : pyStrip text ≠ "") :
    generate_embedding .unparsable digest text =
      some (hashFallbackEmbedding digest) ∧
    (hashFallbackEmbedding digest).length = 768 ∧
    (∀ i, i < 768 →
      (hashFallbackEmbedding digest).getD i 0 =
        ((digest.getD (i % 32) 0 : ℕ) : ℚ) / 255 ∧
      0 ≤ (hashFallbackEmbedding digest).getD i 0 ∧
      (hashFallbackEmbedding digest).getD i 0 ≤ 1) ∧
    sumSq (hashFallbackEmbedding digest) ≠ 1 := by
  refine ⟨?_, hashFallbackEmbedding_length digest, ?_, ?_⟩
  · unfold generate_embedding
    rw [if_neg ht]
  · intro i hi
    have hgetD := hashFallbackEmbedding_getD digest i hi
    rw [h32] at hgetD
    have hidx : i % 32 < digest.length := by
      rw [h32]; exact Nat.mod_lt i (by norm_num)
    have hmem : digest.getD (i % 32) 0 ∈ digest := by
      rw [List.getD_eq_getElem _ _ hidx]
      exact List.getElem_mem hidx
    have hle : (digest.getD (i % 32) 0 : ℚ) ≤ 255 := by
      exact_mod_cast hb _ hmem
    refine ⟨hgetD, ?_, ?_⟩
    · rw [hgetD]
      positivity
    · rw [hgetD]
      rw [div_le_one (by norm_num)]
      exact hle
  · intro hone
    have hmul := sumSq_hashFallback_mul digest h32
    rw [hone, one_mul] at hmul
    have h65 : (65025 : ℕ) = 24 * ((List.range 32).map
        (fun j => (digest.getD j 0) ^ 2)).sum := by
      exact_mod_cast hmul
    omega

theorem C4_hash_fallback_embedding_witness :
    generate_embedding .unparsable (List.replicate 32 1) "x" =
      some (hashFallbackEmbedding (List.replicate 32 1)) ∧
    (hashFallbackEmbedding (List.replicate 32 1)).length = 768 ∧
    (∀ i, i < 768 →
      (hashFallbackEmbedding (List.replicate 32 1)).getD i 0 =
        (((List.replicate 32 1).getD (i % 32) 0 : ℕ) : ℚ) / 255 ∧
      0 ≤ (hashFallbackEmbedding (List.replicate 32 1)).getD i 0 ∧
      (hashFallbackEmbedding (List.replicate 32 1)).getD i 0 ≤ 1) ∧
    sumSq (hashFallbackEmbedding (List.replicate 32 1)) ≠ 1 :=
  C4_hash_fallback_embedding (List.replicate 32 1) "x" (by decide) (by decide)
    (by decide)

theorem C8_blank_zero_vector_witness :
    generate_embedding .apiError [] "   " = some (List.replicate 768 0) ∧
    generate_embedding .apiError [] "   " =
      generate_embedding .unparsable [1] "   " :=
  C8_blank_zero_vector .apiError .unparsable [] [1] "   " (by decide)

theorem pyTake_length_le (n : ℕ) (s : String) : (pyTake n s).length ≤ n :=
  List.length_take_le n s.data

/-- C6 counterexample: on the fallback path with the two required skills
`["Python", "Redis"]`, the code synthesizes the title
`"Developer - Python, Redis"`, not the specification's
`"<first-2-skills> Developer"` (i.e. `"Python, Redis Developer"`). -/
theorem C6_counterexample :
    (generate_no_match_report .failure "T" "D" ["Python", "Redis"] 0).map
        (fun r => r.suggested_job_title) = some (some "Developer - Python, Redis") ∧
    specFallbackTitle ["Python", "Redis"] = "Python, Redis Developer" ∧
    some (some "Developer - Python, Redis") ≠
      some (some "Python, Redis Developer") := by
  refine ⟨by decide, by decide, by decide⟩

/-- C6 (amended): on the Oracle-failure fallback path, for a non-empty
required-skills list `s0 :: rest` the synthesized title is
`"Developer - <first-2-skills>"` when more than one skill is required and
`"<skill> Developer"` when exactly one is; the synthesized HTML description
is the fixed template, which embeds the full skill list (as consecutive
`<li>` items) and the excerpt of the original description truncated to at
most 200 characters.  A successful Oracle reply that merely lacks
`suggested_job_description` keeps its own title (or the
`"Developer - <first-3-skills>"` default) and is patched with the same
template. -/
theorem C6_fallback_report (task_title task_description : String)
    (s0 : String) (rest : List String) (n : ℕ) :
    (∃ r : Report,
      generate_no_match_report .failure task_title task_description
          (s0 :: rest) n = some r ∧
      r.suggested_job_title = some (if rest = [] then s0 ++ " Developer"
        else "Developer - " ++ String.intercalate ", " ((s0 :: rest).take 2)) ∧
      r.suggested_job_description = some (generate_fallback_job_description
        (if rest = [] then s0 ++ " Developer"
         else "Developer - " ++ String.intercalate ", " ((s0 :: rest).take 2))
        (s0 :: rest) task_description)) ∧
    (∀ title d, ∃ pre post,
      generate_fallback_job_description title (s0 :: rest) d =
        pre ++ String.join ((s0 :: rest).map
          (fun sk => "<li>" ++ sk ++ "</li>")) ++ post) ∧
    (∀ title d, ∃ pre post,
      generate_fallback_job_description title (s0 :: rest) d =
        pre ++ pyTake 200 (if d = "" then "Various development tasks" else d)
          ++ post ∧
      (pyTake 200 (if d = "" then "Various development tasks" else d)).length
        ≤ 200) ∧
    (∀ r : Report, r.suggested_job_description = none →
      ∃ r' : Report,
        generate_no_match_report (.success r) task_title task_description
            (s0 :: rest) n = some r' ∧
        r'.suggested_job_description = some (generate_fallback_job_description
          (r.suggested_job_title.getD
            ("Developer - " ++ String.intercalate ", " ((s0 :: rest).take 3)))
          (s0 :: rest) task_description)) := by
  refine ⟨?_, ?_, ?_, ?_⟩
  · cases rest with
    | nil =>
        exact ⟨_, rfl, by simp, by simp⟩
    | cons s1 t =>
        refine ⟨_, rfl, ?_, ?_⟩
        · simp [generate_no_match_report]
        · simp [generate_no_match_report]
  · intro title d
    refine ⟨"\n<h2>About the Role</h2>\n<p>We are looking for a talented " ++
      title ++
      " to join our team and help deliver high-quality software solutions.</p>\n\n" ++
      "<h2>Responsibilities</h2>\n<ul>\n" ++
      "<li>Develop and maintain software according to project requirements</li>\n" ++
      "<li>Collaborate with cross-functional teams</li>\n" ++
      "<li>Participate in code reviews and technical discussions</li>\n" ++
      "<li>Context: " ++
        pyTake 200 (if d = "" then "Various development tasks" else d) ++
        "...</li>\n</ul>\n\n" ++
      "<h2>Requirements</h2>\n<ul>\n",
      "\n<li>Strong problem-solving skills</li>\n" ++
      "<li>Excellent communication abilities</li>\n</ul>\n\n" ++
      "<h2>Nice to Have</h2>\n<ul>\n<li>Experience with agile methodologies</li>\n" ++
      "<li>Open source contributions</li>\n</ul>\n", ?_⟩
    simp [generate_fallback_job_description, String.append_assoc]
  · intro title d
    refine ⟨"\n<h2>About the Role</h2>\n<p>We are looking for a talented " ++
      title ++
      " to join our team and help deliver high-quality software solutions.</p>\n\n" ++
      "<h2>Responsibilities</h2>\n<ul>\n" ++
      "<li>Develop and maintain software according to project requirements</li>\n" ++
      "<li>Collaborate with cross-functional teams</li>\n" ++
      "<li>Participate in code reviews and technical discussions</li>\n" ++
      "<li>Context: ",
      "...</li>\n</ul>\n\n" ++
      "<h2>Requirements</h2>\n<ul>\n" ++
        String.join ((s0 :: rest).map (fun sk => "<li>" ++ sk ++ "</li>")) ++
      "\n<li>Strong problem-solving skills</li>\n" ++
      "<li>Excellent communication abilities</li>\n</ul>\n\n" ++
      "<h2>Nice to Have</h2>\n<ul>\n<li>Experience with agile methodologies</li>\n" ++
      "<li>Open source contributions</li>\n</ul>\n",
      ?_, pyTake_length_le 200 _⟩
    simp [generate_fallback_job_description, String.append_assoc]
  · intro r hr
    refine ⟨_, rfl, ?_⟩
    simp only [generate_no_match_report, hr, if_pos]
    split <;> rfl

/-- A parsed no-match reply that lacks both the description and the title. -/
def reportNoDescription : Report :=
  { severity := "critical", message := "", missing_skills := [],
    recommendations := [], should_post_job := true,
    suggested_job_title := none, suggested_job_description := none,
    required_experience_years := none, llm_evaluation_reasoning := none }

theorem C6_fallback_report_witness :
    (generate_no_match_report (.success reportNoDescription) "T" "D"
        ["Python", "Redis"] 0).map (fun r' => r'.suggested_job_description) =
      some (some (generate_fallback_job_description "Developer - Python, Redis"
        ["Python", "Redis"] "D")) := by
  obtain ⟨r', heq, hdesc⟩ :=
    (C6_fallback_report "T" "D" "Python" ["Redis"] 0).2.2.2 reportNoDescription rfl
  rw [heq, Option.map_some']
  rw [hdesc]
  rfl

/-- The scored-and-thresholded candidate list inside
`search_similar_issues`, split out so that theorems can name it. -/
def similarityCandidates (sqrtF : ℚ → ℚ) (issues : List StoredIssue)
    (query_embedding : List ℚ) (min_similarity : ℚ) : List (StoredIssue × ℚ) :=
  ((issues.filter (fun i => i.doc.description_embedding ≠ [])).map
      (fun i => (i, calculate_cosine_similarity sqrtF query_embedding
                      i.doc.description_embedding))).filter
    (fun p => min_similarity ≤ p.2)

theorem search_similar_issues_eq (sqrtF : ℚ → ℚ) (issues : List StoredIssue)
    (query_embedding : List ℚ) (top_k : ℕ) (min_similarity : ℚ) :
    search_similar_issues sqrtF issues query_embedding top_k min_similarity =
      (pySortDesc (fun p => p.2)
        (similarityCandidates sqrtF issues query_embedding min_similarity)).take
        top_k := rfl

/-- C5: duplicate detection on an empty prior list short-circuits to
`is_duplicate = false, confidence = 1.0` without invoking the Oracle (the
returned flag records whether the LLM was called); and the prior list the
pipeline hands to it — `IssueService.create_issue` calls
`search_similar_issues(db, emb, top_k=3, min_similarity=0.7)`, see the
`create_issue` model — consists of at most 3 issues, each scored by cosine
similarity over `description_embedding` with score `≥ 0.7`, sorted
descending, and they are the top-scored candidates: every selected score
dominates every discarded one. -/
theorem C5_empty_priors_and_selection :
    (∀ (o : LLMOutcome DupResult) (t d : String),
      check_issue_duplicate_with_llm o t d [] =
        ({ is_duplicate := false, parent_task_id := none, confidence := 1,
           reasoning := "No similar issues found", priority_change := none,
           new_skills_required := [] }, false)) ∧
    (∀ (sqrtF : ℚ → ℚ) (issues : List StoredIssue) (q : List ℚ),
      (search_similar_issues sqrtF issues q 3 (7/10)).length ≤ 3 ∧
      (∀ p ∈ search_similar_issues sqrtF issues q 3 (7/10),
        7/10 ≤ p.2 ∧
        p.2 = calculate_cosine_similarity sqrtF q p.1.doc.description_embedding ∧
        p.1 ∈ issues) ∧
      (search_similar_issues sqrtF issues q 3 (7/10)).Pairwise
        (fun a b => b.2 ≤ a.2) ∧
      ∃ rest, List.Perm (search_similar_issues sqrtF issues q 3 (7/10) ++ rest)
          (similarityCandidates sqrtF issues q (7/10)) ∧
        ∀ p ∈ search_similar_issues sqrtF issues q 3 (7/10),
          ∀ p' ∈ rest, p'.2 ≤ p.2) := by
  constructor
  · intro o t d
    rfl
  · intro sqrtF issues q
    rw [search_similar_issues_eq]
    refine ⟨List.length_take_le 3 _, ?_, ?_, ?_⟩
    · intro p hp
      have hmem : p ∈ similarityCandidates sqrtF issues q (7/10) :=
        (pySortDesc_perm (fun p : StoredIssue × ℚ => p.2) _).mem_iff.mp
          (List.mem_of_mem_take hp)
      unfold similarityCandidates at hmem
      have hthr := List.of_mem_filter hmem
      have hmap := List.mem_of_mem_filter hmem
      rcases List.mem_map.mp hmap with ⟨i, hi, hpi⟩
      refine ⟨by simpa using hthr, ?_, ?_⟩
      · rw [← hpi]
      · rw [← hpi]
        exact List.mem_of_mem_filter hi
    · exact (pySortDesc_sorted (fun p : StoredIssue × ℚ => p.2) _).sublist
        (List.take_sublist 3 _)
    · refine ⟨(pySortDesc (fun p : StoredIssue × ℚ => p.2)
        (similarityCandidates sqrtF issues q (7/10))).drop 3, ?_, ?_⟩
      · rw [List.take_append_drop]
        exact pySortDesc_perm _ _
      · intro p hp p' hp'
        exact (pySortDesc_sorted (fun p : StoredIssue × ℚ => p.2)
          (similarityCandidates sqrtF issues q (7/10))).rel_of_mem_take_of_mem_drop
          hp hp'

theorem C5_empty_priors_and_selection_witness :
    (check_issue_duplicate_with_llm .failure "t" "d" []).1.is_duplicate = false ∧
    (check_issue_duplicate_with_llm .failure "t" "d" []).1.confidence = 1 ∧
    (check_issue_duplicate_with_llm .failure "t" "d" []).2 = false ∧
    (7/10 : ℚ) ≤ ((⟨"i1", parentIssueDoc⟩, (1 : ℚ)) : StoredIssue × ℚ).2 := by
  have h1 := C5_empty_priors_and_selection.1 .failure "t" "d"
  have hsel : search_similar_issues sqrtFix [⟨"i1", parentIssueDoc⟩] [1] 3 (7/10)
      = [(⟨"i1", parentIssueDoc⟩, 1)] := by
    norm_num [search_similar_issues, similarityCandidates, pySortDesc,
      calculate_cosine_similarity, sumSq, dotProduct, sqrtFix, parentIssueDoc]
  have h2 := (C5_empty_priors_and_selection.2 sqrtFix
    [⟨"i1", parentIssueDoc⟩] [1]).2.1 (⟨"i1", parentIssueDoc⟩, 1)
    (by rw [hsel]; exact List.mem_singleton.mpr rfl)
  exact ⟨by rw [h1], by rw [h1], by rw [h1], h2.1⟩

theorem enum_pairwise_fst_lt {α : Type _} (l : List α) :
    l.enum.Pairwise (fun p q => p.1 < q.1) := by
  rw [List.pairwise_iff_getElem]
  intro i j hi hj hij
  simp only [List.getElem_enum]
  simpa using hij

/-- Dropping the position tags commutes with the stable descending sort. -/
theorem pySortDesc_enum_map_snd {α : Type _} (key : α → ℚ) (l : List α) :
    (pySortDesc (fun p : ℕ × α => key p.2) l.enum).map Prod.snd =
      pySortDesc key l := by
  unfold pySortDesc
  rw [List.map_insertionSort _ (fun a b : α => key b ≤ key a) Prod.snd l.enum
    (fun a _ b _ => Iff.rfl), List.enum_map_snd]

/-- C7 counterexample: two runs of `find_best_matching_users` on IDENTICAL
program inputs (task skills `["AI"]`, task embedding `[]`, the same two
candidates, `top_n = 5`), whose per-invocation remote embedding calls
return different vectors (`E2` versus `E3` — both plausible replies of the
remote model for the same strings), produce OPPOSITE candidate orders, so
"given identical inputs the returned order is identical on every call" is
false of the program. -/
theorem C7_counterexample :
    (find_best_matching_users E2 sqrtFix ["AI"] [] [sampleUser, userRust]
        5).map (fun m => m.user.oid) = ["u1", "u2"] ∧
    (find_best_matching_users E3 sqrtFix ["AI"] [] [sampleUser, userRust]
        5).map (fun m => m.user.oid) = ["u2", "u1"] := by
  have hAI : String.intercalate ", " ["AI"] = "AI" := by decide
  have hPy : String.intercalate ", " ["Python"] = "Python" := by decide
  have hRu : String.intercalate ", " ["Rust"] = "Rust" := by decide
  have h1 : ("AI" : String) ≠ "Python" := by decide
  have h2 : ("AI" : String) ≠ "Rust" := by decide
  have h3 : ("Rust" : String) ≠ "Python" := by decide
  have h4 : ("Python" : String) ≠ "Rust" := by decide
  constructor <;>
    norm_num [find_best_matching_users, calculate_cosine_similarity, sumSq,
      dotProduct, E2, E3, sqrtFix, pySortDesc, sampleUser, userRust,
      List.insertionSort, List.orderedInsert, hAI, hPy, hRu, h1, h2, h3,
      h4] <;>
    simp [List.cons_ne_nil]

/-- C7 (amended): in user-matching mode the ranker scores every candidate
with `combined_score = 0.7·skill_similarity + 0.3·profile_similarity`, and
returns the scored candidates sorted in descending order of
`combined_score` — by a stable sort, so equal scores keep input order —
truncated to the caller-specified `top_n`.  The order is a function of the
remote embedder's behaviour `E` together with the inputs, so two calls with
identical inputs return the identical order only when their embedding-call
outcomes coincide; the claim's unconditional "identical inputs yield the
identical order on every call" fails, because `find_best_matching_users`
consults the remote `generate_embedding` anew on every invocation. -/
theorem C7_ranker_stable_sorted (E : String → List ℚ) (sqrtF : ℚ → ℚ)
    (task_skills : List String) (task_embeddings : List ℚ)
    (users : List UserDoc) (top_n : ℕ) :
    find_best_matching_users E sqrtF task_skills task_embeddings users top_n =
      (pySortDesc (fun m => m.match_score)
        (scoreUsers E sqrtF task_skills task_embeddings users)).take top_n ∧
    (∀ m ∈ find_best_matching_users E sqrtF task_skills task_embeddings users
        top_n,
      m.match_score = m.skill_similarity * (7/10) +
        m.profile_similarity * (3/10)) ∧
    (find_best_matching_users E sqrtF task_skills task_embeddings users
        top_n).Pairwise (fun a b => b.match_score ≤ a.match_score) ∧
    List.Perm (pySortDesc (fun m => m.match_score)
        (scoreUsers E sqrtF task_skills task_embeddings users))
      (scoreUsers E sqrtF task_skills task_embeddings users) ∧
    (pySortDesc (fun p : ℕ × MatchedUser => p.2.match_score)
        (scoreUsers E sqrtF task_skills task_embeddings users).enum).map
      Prod.snd =
      pySortDesc (fun m => m.match_score)
        (scoreUsers E sqrtF task_skills task_embeddings users) ∧
    (pySortDesc (fun p : ℕ × MatchedUser => p.2.match_score)
        (scoreUsers E sqrtF task_skills task_embeddings users).enum).Pairwise
      (fun p q => p.2.match_score = q.2.match_score → p.1 < q.1) := by
  have heq : find_best_matching_users E sqrtF task_skills task_embeddings users
      top_n = (pySortDesc (fun m => m.match_score)
        (scoreUsers E sqrtF task_skills task_embeddings users)).take top_n := by
    rw [find_best_matching_users_eq]
    by_cases h : users = []
    · subst h
      simp [scoreUsers, pySortDesc]
    · rw [if_neg h]
  refine ⟨heq, ?_, ?_, pySortDesc_perm _ _, pySortDesc_enum_map_snd _ _, ?_⟩
  · intro m hm
    rw [heq] at hm
    have hmem : m ∈ scoreUsers E sqrtF task_skills task_embeddings users :=
      (pySortDesc_perm (fun m : MatchedUser => m.match_score) _).mem_iff.mp
        (List.mem_of_mem_take hm)
    unfold scoreUsers at hmem
    rcases List.mem_map.mp hmem with ⟨u, _, hum⟩
    rw [← hum]
  · rw [heq]
    exact (pySortDesc_sorted (fun m : MatchedUser => m.match_score) _).sublist
      (List.take_sublist top_n _)
  · exact pySortDesc_stable (fun m : MatchedUser => m.match_score) _
      (enum_pairwise_fst_lt _)

theorem C7_ranker_stable_sorted_witness :
    find_best_matching_users E0 sqrtFix ["Python"] [] [sampleUser] 5 =
      [{ user := sampleUser, match_score := 0, skill_similarity := 0,
         profile_similarity := 0 }] ∧
    ({ user := sampleUser, match_score := 0, skill_similarity := 0,
       profile_similarity := 0 } : MatchedUser).match_score =
      ({ user := sampleUser, match_score := 0, skill_similarity := 0,
         profile_similarity := 0 } : MatchedUser).skill_similarity * (7/10) +
      ({ user := sampleUser, match_score := 0, skill_similarity := 0,
         profile_similarity := 0 } : MatchedUser).profile_similarity * (3/10) := by
  have hres : find_best_matching_users E0 sqrtFix ["Python"] [] [sampleUser] 5 =
      [{ user := sampleUser, match_score := 0, skill_similarity := 0,
         profile_similarity := 0 }] := by
    norm_num [find_best_matching_users, calculate_cosine_similarity, E0,
      pySortDesc, sampleUser]
  refine ⟨hres, ?_⟩
  exact (C7_ranker_stable_sorted E0 sqrtFix ["Python"] [] [sampleUser] 5).2.1 _
    (by rw [hres]; exact List.mem_singleton.mpr rfl)

/-- C9: on Oracle failure the profile-evolution fallback keeps exactly the
commit skills not already present — the set difference, in commit order
(a sublist of the commit's skill list) — flags `needs_update` iff that list
is non-empty, and rewrites no profile text; and when `needs_update` holds,
`CommitService.process_commit` stores the deduplicated union of the current
skills and the additions, and writes an embedding recomputed from exactly
that merged skill list in the same update. -/
theorem C9_profile_evolution :
    (∀ (current_profile commit_summary : String)
        (current_skills new_commit_skills : List String),
      (∀ s, s ∈ (check_profile_update_needed .failure current_profile
          current_skills new_commit_skills commit_summary).new_skills_to_add ↔
        s ∈ new_commit_skills ∧ s ∉ current_skills) ∧
      List.Sublist (check_profile_update_needed .failure current_profile
          current_skills new_commit_skills commit_summary).new_skills_to_add
        new_commit_skills ∧
      ((check_profile_update_needed .failure current_profile current_skills
          new_commit_skills commit_summary).needs_update = true ↔
        (check_profile_update_needed .failure current_profile current_skills
          new_commit_skills commit_summary).new_skills_to_add ≠ []) ∧
      (check_profile_update_needed .failure current_profile current_skills
          new_commit_skills commit_summary).updated_profile_text = none) ∧
    (∀ (E : String → List ℚ) (sqrtF : ℚ → ℚ)
        (analysisO : LLMOutcome CommitAnalysis)
        (profO : LLMOutcome ProfileCheck) (now : String) (store : Store)
        (input : CommitInput) (user : UserDoc),
      store.users.find? (fun u => u.email = input.author_email) = some user →
      ∀ pc, pc = check_profile_update_needed profO user.profile_text user.skills
          ((extract_skills_from_commit_diff analysisO input.commit_message
            input.diff input.repository).skills_used.getD [])
          ((extract_skills_from_commit_diff analysisO input.commit_message
            input.diff input.repository).summary.getD input.commit_message) →
      pc.needs_update = true →
      ∃ u' ∈ (CommitService.process_commit E sqrtF analysisO profO now store
          input).2.users,
        u'.oid = user.oid ∧ u'.skills.Nodup ∧
        (∀ s, s ∈ u'.skills ↔ s ∈ user.skills ∨ s ∈ pc.new_skills_to_add) ∧
        u'.work_profile_embeddings = E (String.intercalate ", " u'.skills)) := by
  constructor
  · intro current_profile commit_summary current_skills new_commit_skills
    refine ⟨?_, List.filter_sublist _, ?_, rfl⟩
    · intro s
      simp [check_profile_update_needed, List.mem_filter]
    · simp [check_profile_update_needed]
  · intro E sqrtF analysisO profO now store input user hfind pc hpc hup
    subst hpc
    unfold CommitService.process_commit
    rw [hfind]
    simp only [hup, if_true]
    refine ⟨{ user with
        skills := pySetList (user.skills ++
          (check_profile_update_needed profO user.profile_text user.skills
            ((extract_skills_from_commit_diff analysisO input.commit_message
              input.diff input.repository).skills_used.getD [])
            ((extract_skills_from_commit_diff analysisO input.commit_message
              input.diff input.repository).summary.getD
              input.commit_message)).new_skills_to_add)
        work_profile_embeddings := E (String.intercalate ", "
          (pySetList (user.skills ++
            (check_profile_update_needed profO user.profile_text user.skills
              ((extract_skills_from_commit_diff analysisO input.commit_message
                input.diff input.repository).skills_used.getD [])
              ((extract_skills_from_commit_diff analysisO input.commit_message
                input.diff input.repository).summary.getD
                input.commit_message)).new_skills_to_add))) }, ?_, rfl, ?_, ?_, rfl⟩
    · have hmem : user ∈ store.users := List.mem_of_find?_eq_some hfind
      simp only [Store.updateCommit, Store.updateUser, Store.insertCommit]
      refine List.mem_map.mpr ⟨user, hmem, ?_⟩
      exact if_pos rfl
    · exact List.nodup_dedup _
    · intro s
      simp [pySetList, List.mem_dedup, List.mem_append]

/-- A parsed commit-analysis reply used by the C9 witness. -/
def sampleCommitAnalysis : CommitAnalysis :=
  { summary := some "s", skills_used := some ["Python", "Redis"],
    impact_assessment := some "minor" }

/-- A concrete commit payload authored by `sampleUser`. -/
def sampleCommitInput : CommitInput :=
  { commit_hash := "h1", commit_message := "m", diff := "",
    author_email := "alice@example.com", author_name := "Alice",
    repository := "r", branch := "main", files_changed := 1,
    lines_added := 1, lines_deleted := 0 }

theorem C9_profile_evolution_witness :
    (check_profile_update_needed .failure "" ["Python"] ["Python", "Redis"]
      "s").needs_update = true ∧
    (check_profile_update_needed .failure "" ["Python"] ["Python", "Redis"]
      "s").new_skills_to_add = ["Redis"] ∧
    ∃ u' ∈ (CommitService.process_commit E0 sqrtFix
        (.success sampleCommitAnalysis) .failure "t0" oneUserStore
        sampleCommitInput).2.users,
      u'.oid = sampleUser.oid ∧ u'.skills.Nodup ∧
      (∀ s, s ∈ u'.skills ↔ s ∈ sampleUser.skills ∨
        s ∈ (check_profile_update_needed .failure "" ["Python"]
          ["Python", "Redis"] "s").new_skills_to_add) ∧
      u'.work_profile_embeddings =
        E0 (String.intercalate ", " u'.skills) := by
  refine ⟨by decide, by decide, ?_⟩
  exact C9_profile_evolution.2 E0 sqrtFix (.success sampleCommitAnalysis)
    .failure "t0" oneUserStore sampleCommitInput sampleUser (by decide) _ rfl
    (by decide)

/-- C10 (implicit): the user-matching ranker applies no minimum-score
threshold: it returns exactly `min top_n #users` entries however low the
scores are, so it is empty only for an empty candidate list (or `top_n =
0`, which no caller uses — `IssueService.create_issue` passes `top_n = 5`);
consequently that service's `"no_match"` escalation branch (empty ranking
result with a non-empty user list) is unreachable. -/
theorem C10_no_threshold_in_ranker :
    (∀ (E : String → List ℚ) (sqrtF : ℚ → ℚ) (task_skills : List String)
        (task_embeddings : List ℚ) (users : List UserDoc) (top_n : ℕ),
      (find_best_matching_users E sqrtF task_skills task_embeddings users
        top_n).length = min top_n users.length) ∧
    (∀ (E : String → List ℚ) (sqrtF : ℚ → ℚ) (task_skills : List String)
        (task_embeddings : List ℚ) (users : List UserDoc) (top_n : ℕ),
      users ≠ [] → 1 ≤ top_n →
      find_best_matching_users E sqrtF task_skills task_embeddings users
        top_n ≠ []) ∧
    (∀ (E : String → List ℚ) (sqrtF : ℚ → ℚ) (task_skills : List String)
        (task_embeddings : List ℚ) (top_n : ℕ),
      find_best_matching_users E sqrtF task_skills task_embeddings [] top_n
        = []) ∧
    (∀ (E : String → List ℚ) (sqrtF : ℚ → ℚ) (dupO : LLMOutcome DupResult)
        (skillsO : LLMOutcome (List String)) (evalO : LLMOutcome EvalResult)
        (reportO : LLMOutcome Report) (now : String) (store : Store)
        (input : IssueInput) (res : CreateIssueResult) (st' : Store),
      store.users ≠ [] →
      IssueService.create_issue E sqrtF dupO skillsO evalO reportO now store
        input = some (res, st') →
      res.status ≠ "no_match") := by
  have hlen : ∀ (E : String → List ℚ) (sqrtF : ℚ → ℚ)
      (task_skills : List String) (task_embeddings : List ℚ)
      (users : List UserDoc) (top_n : ℕ),
      (find_best_matching_users E sqrtF task_skills task_embeddings users
        top_n).length = min top_n users.length := by
    intro E sqrtF ts te users n
    rw [find_best_matching_users_eq]
    by_cases h : users = []
    · subst h
      simp
    · rw [if_neg h, List.length_take, pySortDesc_length]
      simp [scoreUsers]
  have hne : ∀ (E : String → List ℚ) (sqrtF : ℚ → ℚ)
      (task_skills : List String) (task_embeddings : List ℚ)
      (users : List UserDoc) (top_n : ℕ),
      users ≠ [] → 1 ≤ top_n →
      find_best_matching_users E sqrtF task_skills task_embeddings users
        top_n ≠ [] := by
    intro E sqrtF ts te users n hu hn
    have hpos : 0 < users.length := List.length_pos.mpr hu
    have := hlen E sqrtF ts te users n
    intro hnil
    rw [hnil] at this
    simp only [List.length_nil] at this
    omega
  refine ⟨hlen, hne, ?_, ?_⟩
  · intro E sqrtF ts te n
    rfl
  · intro E sqrtF dupO skillsO evalO reportO now store input res st' husers
      hres
    simp only [IssueService.create_issue] at hres
    split at hres
    · simp only [Option.some.injEq, Prod.mk.injEq] at hres
      rw [← hres.1]
      show ("duplicate_detected" : String) ≠ "no_match"
      decide
    · split at hres
      · exact absurd (by exact ‹(Store.insertIssue store _).2.users = []›) husers
      · split at hres
        · rename_i hmatch
          exact absurd hmatch (hne _ _ _ _ _ 5 husers (by norm_num))
        · split at hres
          · simp only [Option.some.injEq, Prod.mk.injEq] at hres
            rw [← hres.1]
            show ("assigned" : String) ≠ "no_match"
            decide
          · split at hres
            · exact absurd hres (by simp)
            · split at hres
              · exact absurd hres (by simp)
              · simp only [Option.some.injEq, Prod.mk.injEq] at hres
                rw [← hres.1]
                show ("no_qualified_match" : String) ≠ "no_match"
                decide

theorem C10_no_threshold_in_ranker_witness :
    find_best_matching_users E0 sqrtFix ["Python"] [] [sampleUser] 5 ≠ [] ∧
    ((IssueService.create_issue E0 sqrtFix .failure (.success ["Python"])
        .failure .failure "t0" oneUserStore sampleInput).map
      (fun p => p.1.status)).getD "" ≠ "no_match" := by
  constructor
  · exact C10_no_threshold_in_ranker.2.1 E0 sqrtFix ["Python"] [] [sampleUser]
      5 (by decide) (by norm_num)
  · cases hc : IssueService.create_issue E0 sqrtFix .failure
        (.success ["Python"]) .failure .failure "t0" oneUserStore sampleInput
      with
    | none => simp
    | some p =>
        have h := C10_no_threshold_in_ranker.2.2.2 E0 sqrtFix .failure
          (.success ["Python"]) .failure .failure "t0" oneUserStore sampleInput
          p.1 p.2 (by decide) (by rw [hc])
        simpa using h

/-- Marking an issue `posting_required` leaves a matching document in the
store. -/
theorem mem_updateIssue_posting (st : Store) (fid : String)
    (hmem : ∃ d : IssueDoc, (⟨fid, d⟩ : StoredIssue) ∈ st.issues) :
    ∃ si ∈ (st.updateIssue fid (fun dd =>
        { dd with assignment_status := "posting_required" })).issues,
      si.sid = fid ∧ si.doc.assignment_status = "posting_required" := by
  obtain ⟨d, hd⟩ := hmem
  refine ⟨⟨fid, { d with assignment_status := "posting_required" }⟩, ?_, rfl, rfl⟩
  simp only [Store.updateIssue]
  refine List.mem_map.mpr ⟨⟨fid, d⟩, hd, ?_⟩
  rw [if_pos rfl]

/-- A successful requisition creation only appends one `pending` requisition:
issues and users are untouched. -/
theorem create_job_requisition_some {store : Store} {task_id : String}
    {report : Report} {skills : List String} {now rid : String} {st2 : Store}
    (h : create_job_requisition_from_report store task_id report skills now =
      some (rid, st2)) :
    st2.issues = store.issues ∧ st2.users = store.users ∧
    st2.requisitions.length = store.requisitions.length + 1 := by
  cases skills with
  | nil => simp [create_job_requisition_from_report] at h
  | cons s0 rest =>
      simp only [create_job_requisition_from_report, Store.insertRequisition,
        Option.some.injEq, Prod.mk.injEq] at h
      obtain ⟨h1, h2⟩ := h
      rw [← h2]
      exact ⟨rfl, rfl, by simp⟩

/-- C2 (amended; holds for the `IssueService.create_issue` pipeline, not
for the `main.py` endpoint — see the counterexample): an issue reaches
`assignment_status = "assigned"` only when the batch-validation call
succeeded (`evalO = success r`) and returned a non-null, non-empty
`selected_user_id` matching a candidate ranked by
`find_best_matching_users`; and if the validation call fails or its reply
cannot be parsed, the outcome is never an assignment — a requisition is
created and the issue is marked `"posting_required"` (except on the
duplicate early-return, which consults no validation). -/
theorem C2_validation_gate (E : String → List ℚ) (sqrtF : ℚ → ℚ)
    (dupO : LLMOutcome DupResult) (skillsO : LLMOutcome (List String))
    (evalO : LLMOutcome EvalResult) (reportO : LLMOutcome Report)
    (now : String) (store : Store) (input : IssueInput)
    (res : CreateIssueResult) (st' : Store)
    (hres : IssueService.create_issue E sqrtF dupO skillsO evalO reportO now
      store input = some (res, st')) :
    (res.status = "assigned" →
      ∃ r : EvalResult, evalO = .success r ∧
        ∃ s : String, r.selected_user_id = some s ∧ s ≠ "" ∧
          res.assigned_user_id = some s ∧
          ∃ m ∈ find_best_matching_users E sqrtF
              (extract_skills_from_task skillsO input.title input.description
                "CoreSight")
              (E (input.title ++ ". " ++ input.description)) store.users 5,
            m.user.oid = s) ∧
    (evalO = .failure →
      res.status ≠ "assigned" ∧
      (res.status = "no_users_available" ∨ res.status = "no_match" ∨
        res.status = "no_qualified_match" ∨
        res.status = "duplicate_detected") ∧
      (res.status ≠ "duplicate_detected" →
        res.requisition_id.isSome = true ∧
        st'.requisitions.length = store.requisitions.length + 1 ∧
        ∃ si ∈ st'.issues, si.sid = res.issue_id ∧
          si.doc.assignment_status = "posting_required")) := by
  simp only [IssueService.create_issue] at hres
  split at hres
  · -- duplicate early-return
    simp only [Option.some.injEq, Prod.mk.injEq] at hres
    obtain ⟨h1, _⟩ := hres
    subst h1
    refine ⟨fun hA => absurd (show ("duplicate_detected" : String) = "assigned"
        from hA) (by decide),
      fun _ => ⟨(by decide : ("duplicate_detected" : String) ≠ "assigned"),
        ?_, ?_⟩⟩
    · exact Or.inr (Or.inr (Or.inr rfl))
    · intro hne
      exact absurd rfl hne
  · split at hres
    · -- no users in the store
      split at hres
      · exact absurd hres (by simp)
      · split at hres
        · exact absurd hres (by simp)
        · rename_i report hrep rid st2 hcrea
          simp only [Option.some.injEq, Prod.mk.injEq] at hres
          obtain ⟨h1, h2⟩ := hres
          subst h1
          subst h2
          refine ⟨fun hA => absurd (show ("no_users_available" : String) =
              "assigned" from hA) (by decide),
            fun _ => ⟨(by decide : ("no_users_available" : String) ≠ "assigned"),
              Or.inl rfl, fun _ => ⟨rfl, ?_, ?_⟩⟩⟩
          · exact (create_job_requisition_some hcrea).2.2
          · apply mem_updateIssue_posting
            rw [(create_job_requisition_some hcrea).1]
            exact ⟨_, List.mem_append_right _ (List.mem_singleton.mpr rfl)⟩
    · split at hres
      · -- empty ranking result
        split at hres
        · exact absurd hres (by simp)
        · split at hres
          · exact absurd hres (by simp)
          · rename_i report hrep rid st2 hcrea
            simp only [Option.some.injEq, Prod.mk.injEq] at hres
            obtain ⟨h1, h2⟩ := hres
            subst h1
            subst h2
            refine ⟨fun hA => absurd (show ("no_match" : String) = "assigned"
                from hA) (by decide),
              fun _ => ⟨(by decide : ("no_match" : String) ≠ "assigned"),
                Or.inr (Or.inl rfl), fun _ => ⟨rfl, ?_, ?_⟩⟩⟩
            · exact (create_job_requisition_some hcrea).2.2
            · apply mem_updateIssue_posting
              rw [(create_job_requisition_some hcrea).1]
              exact ⟨_, List.mem_append_right _ (List.mem_singleton.mpr rfl)⟩
      · split at hres
        · -- a candidate was selected and matched: assignment
          rename_i hmatch hscrut au hit
          split at hit
          · rename_i hT
            cases evalO with
            | failure =>
                simp only [evaluate_candidates_batch, if_neg hmatch] at hT
                exact absurd hT (by decide)
            | success r =>
                simp only [evaluate_candidates_batch, if_neg hmatch] at hT hit
                cases hsel : r.selected_user_id with
                | none =>
                    rw [hsel] at hT
                    exact absurd hT (by decide)
                | some s =>
                    rw [hsel] at hT hit
                    have hsne : s ≠ "" := by
                      simpa [optTruthy] using hT
                    have hmem := List.mem_of_find?_eq_some hit
                    have hpred : au.user.oid = s := by
                      have := List.find?_some hit
                      simpa using this
                    simp only [Option.some.injEq, Prod.mk.injEq] at hres
                    obtain ⟨h1, _⟩ := hres
                    subst h1
                    refine ⟨fun _ => ⟨r, rfl, s, hsel, hsne, ?_, au, hmem,
                      hpred⟩, fun hB => ?_⟩
                    · show some au.user.oid = some s
                      rw [hpred]
                    · exact LLMOutcome.noConfusion hB
          · exact Option.noConfusion hit
        · -- rejected (or unmatched selection): requisition
          rename_i hmatch hnone
          split at hres
          · exact absurd hres (by simp)
          · split at hres
            · exact absurd hres (by simp)
            · rename_i report hrep rid st2 hcrea
              simp only [Option.some.injEq, Prod.mk.injEq] at hres
              obtain ⟨h1, h2⟩ := hres
              subst h1
              subst h2
              refine ⟨fun hA => absurd (show ("no_qualified_match" : String) =
                  "assigned" from hA) (by decide),
                fun _ => ⟨(by decide :
                    ("no_qualified_match" : String) ≠ "assigned"),
                  Or.inr (Or.inr (Or.inl rfl)), fun _ => ⟨rfl, ?_, ?_⟩⟩⟩
              · exact (create_job_requisition_some hcrea).2.2
              · apply mem_updateIssue_posting
                rw [(create_job_requisition_some hcrea).1]
                exact ⟨_, List.mem_append_right _ (List.mem_singleton.mpr rfl)⟩

/-- The `main.py` issue endpoint performs no candidate-validation call at
all: its output does not depend on the validation outcome parameter. -/
theorem create_issue_with_ai_ignores_validation (E : String → List ℚ)
    (sqrtF : ℚ → ℚ) (dupO : LLMOutcome DupResult)
    (skillsO : LLMOutcome (List String)) (evalO evalO' : LLMOutcome EvalResult)
    (now : String) (store : Store) (input : IssueInput) :
    create_issue_with_ai E sqrtF dupO skillsO evalO now store input =
      create_issue_with_ai E sqrtF dupO skillsO evalO' now store input := rfl

/-- C2 counterexample: the `/api/issues` endpoint of `main.py` (Scenario B)
assigns the top-ranked candidate directly, with no Oracle batch-validation
call — here with the validation outcome fixed to `failure`, a store with
one user and one matching skill, the created issue still ends
`assignment_status = "assigned"` to `matching_users[0]`.  (That no
validation call exists at all is
`create_issue_with_ai_ignores_validation`.) -/
theorem C2_counterexample :
    ((create_issue_with_ai E0 sqrtFix .failure (.success ["Python"]) .failure
        "t0" oneUserStore sampleInput).map
      (fun p => (p.1.action, p.1.assigned_user_id))) =
      some ("created_and_assigned", some "u1") ∧
    ((create_issue_with_ai E0 sqrtFix .failure (.success ["Python"]) .failure
        "t0" oneUserStore sampleInput).map
      (fun p => p.2.issues.map (fun si => si.doc.assignment_status))) =
      some ["assigned"] := by
  have hstrip1 : pyStrip "Login fails again" = "Login fails again" := by decide
  have hstrip2 : pyStrip "Same login button broken" = "Same login button broken" := by
    decide
  have hstrip3 : pyStrip "Python" = "Python" := by decide
  have hne1 : ("Login fails again" : String) ≠ "" := by decide
  have hne2 : ("Same login button broken" : String) ≠ "" := by decide
  have hne3 : ("Python" : String) ≠ "" := by decide
  have hded : (["Python"] : List String).dedup = ["Python"] := by decide
  have htos : ("oid" ++ toString 0 : String) = "oid0" := by decide
  have hlog : ("[" ++ "t0" ++ "] Issue created" : String) = "[t0] Issue created" := by
    decide
  have hrun : create_issue_with_ai E0 sqrtFix .failure (.success ["Python"])
      .failure "t0" oneUserStore sampleInput =
      some ({ action := "created_and_assigned", parent_task_id := none,
              issue_id := "oid0", assigned_user_id := some "u1" },
        { issues := [⟨"oid0",
            { title := "Login fails again",
              description := "Same login button broken",
              description_embedding := [], parent_task_id := none,
              is_duplicate := false, required_skills := ["Python"],
              skill_embeddings := [], priority := "high",
              assigned_user_id := some "u1",
              assignment_status := "assigned",
              activity_log := ["[t0] Issue created"], source := "api",
              external_id := none, project_id := none, created_at := "t0",
              updated_at := "t0" }⟩],
          users := [sampleUser], tasks := [], requisitions := [],
          commits := [], nextId := 1 }) := by
    norm_num [create_issue_with_ai, hstrip1, hstrip2, hstrip3, hne1, hne2,
      hne3, hded, htos, hlog, E0, search_similar_issues, pySortDesc,
      check_issue_duplicate_with_llm, extract_skills_from_task,
      find_matching_users_by_skills, calculate_cosine_similarity,
      oneUserStore, emptyStore, sampleUser, sampleInput, Store.insertIssue,
      Store.updateIssue, Store.freshId, optTruthy]
  rw [hrun]
  constructor <;> rfl

theorem C2_validation_gate_witness :
    ((IssueService.create_issue E0 sqrtFix .failure (.success ["Python"])
        .failure .failure "t0" oneUserStore sampleInput).map
      (fun p => p.1.status)).getD "" ≠ "assigned" := by
  cases hc : IssueService.create_issue E0 sqrtFix .failure (.success ["Python"])
      .failure .failure "t0" oneUserStore sampleInput with
  | none => simp
  | some p =>
      have h := (C2_validation_gate E0 sqrtFix .failure (.success ["Python"])
        .failure .failure "t0" oneUserStore sampleInput p.1 p.2
        (by rw [hc])).2 rfl
      simpa using h.1

/-- C1 (amended; holds for the duplicate branch — Scenario A — of the
`main.py` issue endpoint, not for `IssueService.create_issue`, which
inserts the new document before its duplicate early-return — see the
counterexample): when the endpoint takes the duplicate branch, no document
is inserted anywhere: issue count, users, requisitions, commits and the id
counter are unchanged; every issue other than the parent is untouched; and
the parent receives exactly one appended activity-log entry, with title,
description, assignment status, assignee, duplicate flag, source and
creation time preserved, priority overwritten only when the analysis
reported a priority change, and `required_skills`/`skill_embeddings`
(together with `description_embedding`) overwritten only when it reported
new skills. -/
theorem C1_no_insert_on_duplicate (E : String → List ℚ) (sqrtF : ℚ → ℚ)
    (dupO : LLMOutcome DupResult) (skillsO : LLMOutcome (List String))
    (evalO : LLMOutcome EvalResult) (now : String) (store : Store)
    (input : IssueInput) (res : MainIssueResult) (st' : Store)
    (hres : create_issue_with_ai E sqrtF dupO skillsO evalO now store input =
      some (res, st'))
    (hact : res.action = "updated_existing") :
    st'.issues.length = store.issues.length ∧
    st'.users = store.users ∧ st'.requisitions = store.requisitions ∧
    st'.commits = store.commits ∧ st'.nextId = store.nextId ∧
    ∃ parent, res.parent_task_id = some parent ∧
      ∀ i (h1 : i < store.issues.length) (h2 : i < st'.issues.length),
        (st'.issues.get ⟨i, h2⟩).sid = (store.issues.get ⟨i, h1⟩).sid ∧
        ((store.issues.get ⟨i, h1⟩).sid ≠ parent →
          st'.issues.get ⟨i, h2⟩ = store.issues.get ⟨i, h1⟩) ∧
        ((store.issues.get ⟨i, h1⟩).sid = parent →
          ∃ entry,
            (st'.issues.get ⟨i, h2⟩).doc.activity_log =
              (store.issues.get ⟨i, h1⟩).doc.activity_log ++ [entry] ∧
            (st'.issues.get ⟨i, h2⟩).doc.title =
              (store.issues.get ⟨i, h1⟩).doc.title ∧
            (st'.issues.get ⟨i, h2⟩).doc.description =
              (store.issues.get ⟨i, h1⟩).doc.description ∧
            (st'.issues.get ⟨i, h2⟩).doc.assignment_status =
              (store.issues.get ⟨i, h1⟩).doc.assignment_status ∧
            (st'.issues.get ⟨i, h2⟩).doc.assigned_user_id =
              (store.issues.get ⟨i, h1⟩).doc.assigned_user_id ∧
            (st'.issues.get ⟨i, h2⟩).doc.is_duplicate =
              (store.issues.get ⟨i, h1⟩).doc.is_duplicate ∧
            (st'.issues.get ⟨i, h2⟩).doc.source =
              (store.issues.get ⟨i, h1⟩).doc.source ∧
            (st'.issues.get ⟨i, h2⟩).doc.created_at =
              (store.issues.get ⟨i, h1⟩).doc.created_at ∧
            (optTruthy (check_issue_duplicate_with_llm dupO
                (pyStrip input.title) (pyStrip input.description)
                (search_similar_issues sqrtF store.issues
                  (E (pyStrip input.title ++ " " ++ pyStrip input.description))
                  5 (7/10))).1.priority_change = false →
              (st'.issues.get ⟨i, h2⟩).doc.priority =
                (store.issues.get ⟨i, h1⟩).doc.priority) ∧
            ((check_issue_duplicate_with_llm dupO
                (pyStrip input.title) (pyStrip input.description)
                (search_similar_issues sqrtF store.issues
                  (E (pyStrip input.title ++ " " ++ pyStrip input.description))
                  5 (7/10))).1.new_skills_required = [] →
              (st'.issues.get ⟨i, h2⟩).doc.required_skills =
                (store.issues.get ⟨i, h1⟩).doc.required_skills ∧
              (st'.issues.get ⟨i, h2⟩).doc.skill_embeddings =
                (store.issues.get ⟨i, h1⟩).doc.skill_embeddings ∧
              (st'.issues.get ⟨i, h2⟩).doc.description_embedding =
                (store.issues.get ⟨i, h1⟩).doc.description_embedding)) := by
  simp only [create_issue_with_ai] at hres
  split at hres
  · exact Option.noConfusion hres
  · split at hres
    · -- Scenario A
      simp only [Option.some.injEq, Prod.mk.injEq] at hres
      obtain ⟨h1, h2⟩ := hres
      subst h1
      subst h2
      set chk := (check_issue_duplicate_with_llm dupO (pyStrip input.title)
        (pyStrip input.description) (search_similar_issues sqrtF store.issues
          (E (pyStrip input.title ++ " " ++ pyStrip input.description)) 5
          (7/10))).1 with hchk
      refine ⟨by simp [Store.updateIssue], rfl, rfl, rfl, rfl,
        chk.parent_task_id.getD "", rfl, ?_⟩
      intro i hi1 hi2
      simp only [Store.updateIssue, List.get_eq_getElem, List.getElem_map]
      by_cases hsid : (store.issues[i]).sid = chk.parent_task_id.getD ""
      · rw [if_pos hsid]
        refine ⟨rfl, fun hne => absurd hsid hne, fun _ => ?_⟩
        by_cases hp : optTruthy chk.priority_change = true
        · by_cases hs : chk.new_skills_required = []
          · exact ⟨"[" ++ now ++ "] Related issue reported: " ++
              pyStrip input.title ++ " | Priority updated to: " ++
              input.priority, by simp [hp, hs]⟩
          · exact ⟨"[" ++ now ++ "] Related issue reported: " ++
              pyStrip input.title ++ " | Priority updated to: " ++
              input.priority ++ " | New skills added: " ++
              String.intercalate ", " chk.new_skills_required,
              by simp [hp, hs]⟩
        · by_cases hs : chk.new_skills_required = []
          · exact ⟨"[" ++ now ++ "] Related issue reported: " ++
              pyStrip input.title, by simp [hp, hs]⟩
          · exact ⟨"[" ++ now ++ "] Related issue reported: " ++
              pyStrip input.title ++ " | New skills added: " ++
              String.intercalate ", " chk.new_skills_required,
              by simp [hp, hs]⟩
      · rw [if_neg hsid]
        exact ⟨rfl, fun _ => rfl, fun heq => absurd heq hsid⟩
    · -- Scenario B produces a different action
      split at hres
      · simp only [Option.some.injEq, Prod.mk.injEq] at hres
        obtain ⟨h1, _⟩ := hres
        rw [← h1] at hact
        exact absurd (show ("created_and_assigned" : String) =
            "updated_existing" from hact) (by decide)
      · simp only [Option.some.injEq, Prod.mk.injEq] at hres
        obtain ⟨h1, _⟩ := hres
        rw [← h1] at hact
        exact absurd (show ("created_requires_posting" : String) =
            "updated_existing" from hact) (by decide)

/-- C1 counterexample: `IssueService.create_issue` inserts the new issue
document before its duplicate early-return, so a confirmed duplicate (here
of the stored issue `i1`, with the detector's reply `dupYes`) leaves TWO
issue documents in the store — the claim's "no insert into the issues
collection occurs on that path" fails on this intake operation. -/
theorem C1_counterexample :
    oneIssueStore.issues.length = 1 ∧
    ((IssueService.create_issue E1 sqrtFix (.success dupYes)
        (.success ["Python"]) .failure .failure "t0" oneIssueStore
        sampleInput).map
      (fun p => (p.1.status, p.2.issues.length))) =
      some ("duplicate_detected", 2) := by
  refine ⟨rfl, ?_⟩
  have h3 : pyStrip "Python" = "Python" := by decide
  have h4 : ("Python" : String) ≠ "" := by decide
  have h5 : ("i1" : String) ≠ "" := by decide
  norm_num [IssueService.create_issue, E1, search_similar_issues, pySortDesc,
    check_issue_duplicate_with_llm, extract_skills_from_task, dupYes,
    calculate_cosine_similarity, sumSq, dotProduct, sqrtFix, oneIssueStore,
    emptyStore, parentIssueDoc, sampleInput, Store.insertIssue, Store.freshId,
    optTruthy, h3, h4, h5]

theorem C1_no_insert_on_duplicate_witness :
    ((create_issue_with_ai E1 sqrtFix (.success dupYes) (.success ["Python"])
        .failure "t0" oneIssueStore sampleInput).map
      (fun p => p.1.action)).getD "" = "updated_existing" ∧
    ((create_issue_with_ai E1 sqrtFix (.success dupYes) (.success ["Python"])
        .failure "t0" oneIssueStore sampleInput).map
      (fun p => p.2.issues.length)).getD 0 = oneIssueStore.issues.length := by
  have hstrip1 : pyStrip "Login fails again" = "Login fails again" := by decide
  have hstrip2 : pyStrip "Same login button broken" = "Same login button broken" := by
    decide
  have hne1 : ("Login fails again" : String) ≠ "" := by decide
  have hne2 : ("Same login button broken" : String) ≠ "" := by decide
  have h5 : ("i1" : String) ≠ "" := by decide
  have happ : (create_issue_with_ai E1 sqrtFix (.success dupYes)
      (.success ["Python"]) .failure "t0" oneIssueStore sampleInput).map
      (fun p => p.1.action) = some "updated_existing" := by
    norm_num [create_issue_with_ai, E1, search_similar_issues, pySortDesc,
      check_issue_duplicate_with_llm, dupYes, calculate_cosine_similarity,
      sumSq, dotProduct, sqrtFix, oneIssueStore, emptyStore, parentIssueDoc,
      sampleInput, Store.updateIssue, optTruthy, hstrip1, hstrip2, hne1,
      hne2, h5]
  constructor
  · rw [happ]
    rfl
  · cases hc : create_issue_with_ai E1 sqrtFix (.success dupYes)
        (.success ["Python"]) .failure "t0" oneIssueStore sampleInput with
    | none =>
        rw [hc] at happ
        exact Option.noConfusion happ
    | some p =>
        have hact : p.1.action = "updated_existing" := by
          rw [hc] at happ
          simpa using happ
        have h := C1_no_insert_on_duplicate E1 sqrtFix (.success dupYes)
          (.success ["Python"]) .failure "t0" oneIssueStore sampleInput p.1
          p.2 (by rw [hc]) hact
        simp [hc, h.1]

end CoreSight
